import Mathlib

/-!
# cstor-operators: pool reconciliation (pkg/pool/operations)

A shallow embedding of `modify.go` and `pool_utils.go`.

* Go slices are lists, `uint64` values are natural numbers (with an explicit
  `% 2 ^ 64` where the source subtracts), a Go `error` is an `Option` of a
  message (`none` is `nil`).
* A run-time panic of the Go code (index out of range) is the result `none` of
  a function returning `Option`, or the flag `panicked` of a state.
* Calls to the object store, the volume manager and the event recorder are
  functions of an abstract world `W`, threaded through the code; the calls
  that act on the world, and the lookups that fail, are also appended to a
  trace so that statements can speak about what a pass did.
-/

set_option autoImplicit false

namespace Cstor

/-! ## Data model -/

/-- Vdev of the zpool dump (`zpool.Vdev`): only the fields the code reads. -/
inductive Vdev where
  | mk (Path : String) (Children : List Vdev) (VdevStats : List Nat) (ScanStats : List Nat)

namespace Vdev

/-- Field `Path`. -/
def Path : Vdev → String
  | mk p _ _ _ => p

/-- Field `Children`. -/
def Children : Vdev → List Vdev
  | mk _ c _ _ => c

/-- Field `VdevStats`. -/
def VdevStats : Vdev → List Nat
  | mk _ _ s _ => s

/-- Field `ScanStats`. -/
def ScanStats : Vdev → List Nat
  | mk _ _ _ s => s

/-- The Go zero value `Vdev{}`. -/
def zero : Vdev := mk "" [] [] []

end Vdev

/-- The `zpool.VdevTree`: the three forests of a pool. -/
structure VdevTree where
  Topvdev : List Vdev
  Readcache : List Vdev
  Spares : List Vdev

/-- The `zpool.Topology` returned by the pool dump. -/
structure Topology where
  VdevTree : VdevTree

/-- Constants of the `zpool` package that the source names and that are not
part of the sources: the positions of the counters in the statistics vectors
and the two enumeration values compared against. They are parameters of the
model. -/
structure ZpoolConstants where
  VdevScanProcessedIndex : Nat
  VdevScanStatsStateIndex : Nat
  VdevScanStatsScanFuncIndex : Nat
  PoolScanFinished : Nat
  PoolScanFuncResilver : Nat

/-- One raid-group member (`cstor.CStorPoolInstanceBlockDevice`). -/
structure CStorPoolInstanceBlockDevice where
  BlockDeviceName : String
  Capacity : Nat
  DevLink : String

/-- A raid group (`cstor.RaidGroup`). -/
structure RaidGroup where
  CStorPoolInstanceBlockDevices : List CStorPoolInstanceBlockDevice

/-- The `PoolConfig` part of the spec. -/
structure PoolConfig where
  DataRaidGroupType : String
  WriteCacheGroupType : String

/-- The `Spec` of a pool instance. -/
structure CStorPoolInstanceSpec where
  PoolConfig : PoolConfig
  DataRaidGroups : List RaidGroup
  WriteCacheRaidGroups : List RaidGroup

/-- The pool instance record (`cstor.CStorPoolInstance`). -/
structure CStorPoolInstance where
  Name : String
  Namespace : String
  Labels : List (String × String)
  Spec : CStorPoolInstanceSpec

/-! ## Topology inspection (`pool_utils.go`) -/

/-- Modelled from the spec: `util.ContainsString` is not part of the sources;
the spec (4.2) has the search look for a path that is in the candidate set, so
the helper is membership of `key` in the slice. -/
def ContainsString (stringarr : List String) (key : String) : Bool :=
  stringarr.contains key

mutual
/-- The outer loop of `compareDisk`: `for _, v := range d`, then
`return "", false`. -/
def compareDisk (path : List String) : List Vdev → String × Bool
  | [] => ("", false)
  | v :: rest =>
    match compareDiskBody path v with
    | (p, true) => (p, true)
    | (_, false) => compareDisk path rest
termination_by structural l => l
/-- The body of the outer loop of `compareDisk`; `(_, false)` means that the
body fell through to the next `v`. -/
def compareDiskBody (path : List String) : Vdev → String × Bool
  | .mk vp vc _ _ =>
    if ContainsString path vp then (vp, true)
    else compareDiskChildren path vc
termination_by structural v => v
/-- The inner loop of `compareDisk`: `for _, p := range v.Children`. -/
def compareDiskChildren (path : List String) : List Vdev → String × Bool
  | [] => ("", false)
  | p :: ps =>
    match compareDiskChild path p with
    | (x, true) => (x, true)
    | (_, false) => compareDiskChildren path ps
termination_by structural l => l
/-- The body of the inner loop of `compareDisk`: the test of `p.Path`, then the
recursive call on `p.Children`. -/
def compareDiskChild (path : List String) : Vdev → String × Bool
  | .mk pp pc _ _ =>
    if ContainsString path pp then (pp, true)
    else
      match compareDisk path pc with
      | (x, true) => (x, true)
      | (_, false) => ("", false)
termination_by structural v => v
end

/-- The function `checkIfDeviceUsed`. -/
def checkIfDeviceUsed (path : List String) (t : Topology) : String × Bool :=
  match compareDisk path t.VdevTree.Topvdev with
  | (usedPath, true) => (usedPath, true)
  | (_, false) =>
    match compareDisk path t.VdevTree.Spares with
    | (usedPath, true) => (usedPath, true)
    | (_, false) =>
      match compareDisk path t.VdevTree.Readcache with
      | (usedPath, true) => (usedPath, true)
      | (usedPath, false) => (usedPath, false)

mutual
/-- Modelled from the spec: `VdevList.GetVdevFromPath` of the `zpool` package is
not part of the sources. The spec (4.2, `findVdevByPath`) gives it as a search
by exact path equality at any depth; a forest is searched depth-first, a vdev
before its children. A miss returns the zero vdev and `false`. -/
def GetVdevFromPath (path : String) : List Vdev → Vdev × Bool
  | [] => (Vdev.zero, false)
  | v :: rest =>
    match GetVdevFromPathVdev path v with
    | (x, true) => (x, true)
    | (_, false) => GetVdevFromPath path rest
termination_by structural l => l
/-- Modelled from the spec: the search of `GetVdevFromPath` in one vdev and its
descendants. -/
def GetVdevFromPathVdev (path : String) : Vdev → Vdev × Bool
  | .mk p c vs ss =>
    if p = path then (.mk p c vs ss, true)
    else GetVdevFromPath path c
termination_by structural v => v
end

/-- The function `getVdevFromPath`. -/
def getVdevFromPath (path : String) (topology : Topology) : Vdev × Bool :=
  match GetVdevFromPath path topology.VdevTree.Topvdev with
  | (vdev, true) => (vdev, true)
  | (_, false) =>
    match GetVdevFromPath path topology.VdevTree.Spares with
    | (vdev, true) => (vdev, true)
    | (_, false) =>
      match GetVdevFromPath path topology.VdevTree.Readcache with
      | (vdev, true) => (vdev, true)
      | (vdev, false) => (vdev, false)

/-- The classification made by `isResilveringInProgress` once the vdev is
found (lines 218 to 236). An index out of range is `none`. The conjunction of
line 231 is evaluated left to right and stops at the first false operand. -/
def classifyVdev (k : ZpoolConstants) (vdev : Vdev) : Option Bool :=
  if vdev.ScanStats.length = 0 then some false
  else
    match vdev.VdevStats[k.VdevScanProcessedIndex]? with
    | none => none
    | some processed =>
      if processed = 0 then some false
      else if vdev.Children.length = 0 then
        match vdev.ScanStats[k.VdevScanStatsStateIndex]? with
        | none => none
        | some state =>
          if state = k.PoolScanFinished then
            match vdev.ScanStats[k.VdevScanStatsScanFuncIndex]? with
            | none => none
            | some func =>
              if func = k.PoolScanFuncResilver then some false else some true
          else some true
      else some true

/-- The function `isResilveringInProgress`; `none` is a run-time panic. -/
def isResilveringInProgress (k : ZpoolConstants)
    (executeCommand : CStorPoolInstance → Except String Topology)
    (cspi : CStorPoolInstance) (path : String) : Option Bool :=
  match executeCommand cspi with
  | .error _ => some true
  | .ok poolTopology =>
    match getVdevFromPath path poolTopology with
    | (_, false) => some true
    | (vdev, true) => classifyVdev k vdev

/-! ## Specification-side vocabulary for the topology -/

mutual
/-- Every vdev of a forest, depth-first, a vdev before its children. -/
def forestPreorder : List Vdev → List Vdev
  | [] => []
  | v :: rest => vdevPreorder v ++ forestPreorder rest
termination_by structural l => l
/-- A vdev followed by its descendants, depth-first. -/
def vdevPreorder : Vdev → List Vdev
  | .mk p c vs ss => .mk p c vs ss :: forestPreorder c
termination_by structural v => v
end

/-- Every vdev of a topology: top-level forest, then spares, then read
cache. -/
def topologyPreorder (t : Topology) : List Vdev :=
  forestPreorder t.VdevTree.Topvdev ++ forestPreorder t.VdevTree.Spares ++
    forestPreorder t.VdevTree.Readcache

/-- The first element of a list of paths that belongs to the candidate set,
with the found flag; the empty path when there is none. -/
def firstUsed (path : List String) : List String → String × Bool
  | [] => ("", false)
  | p :: ps => if ContainsString path p then (p, true) else firstUsed path ps


/-! ## Object-store records and collaborators -/

/-- A block device claim (`openebsapis.BlockDeviceClaim`): the fields the code
reads. The annotation map is an association list. -/
structure BlockDeviceClaim where
  Name : String
  Namespace : String
  Annotations : List (String × String)
  Finalizers : List String
  BlockDeviceName : String
deriving DecidableEq

/-- A block device record (`openebsapis.BlockDevice`): the links of every
`DevLinks` entry, the canonical path and the capacity in bytes. -/
structure BlockDevice where
  DevLinks : List (List String)
  Path : String
  Capacity : Nat
deriving DecidableEq

/-- One recorded step of a pass: a call to a collaborator, with its outcome
(`ok`), or a lookup that failed (`claimLookup`, `predecessorPath` and
`currentPath` are recorded only when they fail). -/
inductive Step where
  | listBlockDeviceClaims (selector : String) (ok : Bool)
  | claimLookup (bdName : String) (ok : Bool)
  | predecessorPath (bdName : String) (ok : Bool)
  | currentPath (bdName : String) (ok : Bool)
  | replacePoolVdev (bdName : String) (oldPath newPath : List String) (ok : Bool)
  | cleanUpReplacementMarks (bdName : String) (ok : Bool)
  | deleteBlockDeviceClaim (name : String) (ok : Bool)
  | updateBlockDeviceClaim (claim : BlockDeviceClaim) (ok : Bool)
  | addNewVdevFromCSP (ok : Bool)
  | updateCStorPoolInstance (ok : Bool)
  | expandGetBlockDevice (bdName : String) (ok : Bool)
  | expandPool (devLink : String) (capacity : Nat) (ok : Bool)
  | event (eventType reason about : String)
deriving DecidableEq

/-- The receiver `oc` of the methods together with the package-level
collaborators and the string constants of package `types`; the sources hold
none of them. Reads are functions of the world `W`; calls that act on the
object store or on the pool also return the next world. -/
structure OperationsConfig (W : Type) where
  zpool : ZpoolConstants
  PredecessorBDLabelKey : String
  CSPCFinalizer : String
  CStorPoolClusterLabelKey : String
  listBlockDeviceClaims : W → String → Except String (List BlockDeviceClaim)
  getBlockDevice : W → String → Except String BlockDevice
  deleteBlockDeviceClaim : W → String → String → Option String × W
  updateBlockDeviceClaim : W → BlockDeviceClaim → Option String × W
  updateCStorPoolInstance : W → CStorPoolInstance → Except String CStorPoolInstance × W
  executeZpoolDump : W → CStorPoolInstance → Except String Topology
  replacePoolVdev : W → CStorPoolInstance → List String → List String →
    Except String (String × Nat) × W
  addNewVdevFromCSP : W → CStorPoolInstance → Option String × W
  expandPool : W → String → Nat → Option String × W

/-! ## Helpers of the package that are not in the sources -/

/-- Modelled from the spec: `ErrorWrapf` is not part of the sources. The spec
(section 7) has every failure wrapped into the aggregate error of the pass: the
result is never nil and keeps the earlier error as its cause. -/
def ErrorWrapf (err : Option String) (msg : String) : Option String :=
  match err with
  | none => some msg
  | some cause => some (msg ++ ": " ++ cause)

/-- Modelled from the spec: `IsEmpty` is not part of the sources; the empty
string is the empty path. -/
def IsEmpty (s : String) : Bool := s.length == 0

/-- Modelled from the spec: `GetBlockDeviceClaimFromBDName` is not part of the
sources. The spec (4.4, step 1) has it look up the claim of a device and fail
when there is none. -/
def GetBlockDeviceClaimFromBDName (bdClaimList : List BlockDeviceClaim) (bdName : String) :
    Except String BlockDeviceClaim :=
  match bdClaimList.find? (fun bdc => bdc.BlockDeviceName == bdName) with
  | some bdc => .ok bdc
  | none => .error ("claim does not exist for blockdevice " ++ bdName)

/-- Reading a Go `map[string]string` at a key: the zero value when absent. -/
def mapGet (m : List (String × String)) (key : String) : String :=
  (m.lookup key).getD ""

/-- The Go built-in `delete` on a map. -/
def mapDelete (m : List (String × String)) (key : String) : List (String × String) :=
  m.filter (fun kv => kv.1 != key)

/-- Modelled from the spec: `RemoveFinalizer` of the claim is not part of the
sources; it strips the ownership marker from the in-memory claim. -/
def RemoveFinalizer (bdc : BlockDeviceClaim) (finalizer : String) : BlockDeviceClaim :=
  { bdc with Finalizers := bdc.Finalizers.filter (fun f => f != finalizer) }

/-! ## `pool_utils.go`: paths and cleanup -/

/-- The function `getPathForBDevFromBlockDevice`. -/
def getPathForBDevFromBlockDevice (bd : BlockDevice) : List String :=
  let paths : List String :=
    if bd.DevLinks.length ≠ 0 then bd.DevLinks.foldl (fun acc links => acc ++ links) []
    else []
  if bd.Path.length ≠ 0 then paths ++ [bd.Path] else paths

/-- The method `getPathForBDev`. -/
def getPathForBDev {W : Type} (oc : OperationsConfig W) (w : W) (bdev : String) :
    Except String (List String) :=
  match oc.getBlockDevice w bdev with
  | .error err => .error err
  | .ok bd => .ok (getPathForBDevFromBlockDevice bd)

/-- What a call of `cleanUpReplacementMarks` leaves behind: the returned error,
the in-memory value of `oldObj` and of `newObj`, the world and the calls
made. -/
structure CleanUpResult (W : Type) where
  err : Option String
  oldObj : Option BlockDeviceClaim
  newObj : BlockDeviceClaim
  world : W
  trace : List Step

/-- The second half of `cleanUpReplacementMarks` (lines 284 to 296). -/
def removePredecessorMark {W : Type} (oc : OperationsConfig W) (w : W)
    (oldObj : Option BlockDeviceClaim) (newObj : BlockDeviceClaim) (trace : List Step) :
    CleanUpResult W :=
  let bdAnnotations := mapDelete newObj.Annotations oc.PredecessorBDLabelKey
  let newObj1 := { newObj with Annotations := bdAnnotations }
  match oc.updateBlockDeviceClaim w newObj1 with
  | (some err, w1) =>
    { err := some ("Failed to remove annotation " ++ oc.PredecessorBDLabelKey ++
        " from blockdeviceclaim " ++ newObj1.Name ++ ": " ++ err),
      oldObj := oldObj, newObj := newObj1, world := w1,
      trace := trace ++ [.updateBlockDeviceClaim newObj1 false] }
  | (none, w1) =>
    { err := none, oldObj := oldObj, newObj := newObj1, world := w1,
      trace := trace ++ [.updateBlockDeviceClaim newObj1 true] }

/-- The method `cleanUpReplacementMarks`. -/
def cleanUpReplacementMarks {W : Type} (oc : OperationsConfig W) (w : W)
    (oldObj : Option BlockDeviceClaim) (newObj : BlockDeviceClaim) : CleanUpResult W :=
  match oldObj with
  | some old =>
    let old1 := RemoveFinalizer old oc.CSPCFinalizer
    match oc.deleteBlockDeviceClaim w newObj.Namespace old1.Name with
    | (some err, w1) =>
      { err := some ("Failed to unclaim old blockdevice " ++ old1.BlockDeviceName ++
          ": " ++ err),
        oldObj := some old1, newObj := newObj, world := w1,
        trace := [.deleteBlockDeviceClaim old1.Name false] }
    | (none, w1) =>
      removePredecessorMark oc w1 (some old1) newObj [.deleteBlockDeviceClaim old1.Name true]
  | none => removePredecessorMark oc w none newObj []

/-! ## `modify.go` -/

/-- Constant `DeviceTypeSpare`. -/
def DeviceTypeSpare : String := "spare"

/-- Constant `DeviceTypeReadCache`. -/
def DeviceTypeReadCache : String := "cache"

/-- Constant `DeviceTypeWriteCache`. -/
def DeviceTypeWriteCache : String := "log"

/-- Constant `DeviceTypeData`. -/
def DeviceTypeData : String := "data"

/-- The type `raidConfiguration`. -/
structure raidConfiguration where
  RaidGroupType : String
  RaidGroups : List RaidGroup

/-- The function `getRaidGroupsConfiguration`; the Go map is the list of its two
entries. -/
def getRaidGroupsConfiguration (cspi : CStorPoolInstance) : List (String × raidConfiguration) :=
  [(DeviceTypeData,
      { RaidGroups := cspi.Spec.DataRaidGroups,
        RaidGroupType := cspi.Spec.PoolConfig.DataRaidGroupType }),
   (DeviceTypeWriteCache,
      { RaidGroups := cspi.Spec.WriteCacheRaidGroups,
        RaidGroupType := cspi.Spec.PoolConfig.WriteCacheGroupType })]

/-- The order in which a `range` over the map visits its two entries is not
fixed by Go: `dataFirst` chooses it. -/
def rangeMap {α : Type} (dataFirst : Bool) (m : List α) : List α :=
  if dataFirst then m else m.reverse

/-- The constant `minimumMB` of `ExpandPoolIfDiskExpanded`. -/
def minimumMB : Nat := 500 * 1024 * 1024

/-- Subtraction of `uint64` values. -/
def subUint64 (a b : Nat) : Nat := (a % 2 ^ 64 + 2 ^ 64 - b % 2 ^ 64) % 2 ^ 64

/-- The local variables of `ExpandPoolIfDiskExpanded` with the world and the
calls made. -/
structure ExpandState (W : Type) where
  err : Option String
  isPoolExpanded : Bool
  world : W
  trace : List Step

/-- The body of the innermost loop of `ExpandPoolIfDiskExpanded` (lines 226 to
242) for one member. -/
def expandBlockDevice {W : Type} (oc : OperationsConfig W) (s : ExpandState W)
    (cspiBlockDevice : CStorPoolInstanceBlockDevice) : ExpandState W :=
  if cspiBlockDevice.Capacity > 0 ∧ cspiBlockDevice.DevLink ≠ "" then
    match oc.getBlockDevice s.world cspiBlockDevice.BlockDeviceName with
    | .error er =>
      { s with
        err := ErrorWrapf s.err ("Failed to get blockdevice " ++
          cspiBlockDevice.BlockDeviceName ++ " .. err " ++ er),
        trace := s.trace ++ [.expandGetBlockDevice cspiBlockDevice.BlockDeviceName false] }
    | .ok bdObj =>
      let s1 := { s with
        trace := s.trace ++ [.expandGetBlockDevice cspiBlockDevice.BlockDeviceName true] }
      if subUint64 bdObj.Capacity minimumMB > cspiBlockDevice.Capacity then
        match oc.expandPool s1.world cspiBlockDevice.DevLink cspiBlockDevice.Capacity with
        | (some _, w1) =>
          { s1 with
            err := ErrorWrapf s1.err ("Failed to expand disk " ++ cspiBlockDevice.DevLink ++
              " in pool"),
            world := w1,
            trace := s1.trace ++
              [.expandPool cspiBlockDevice.DevLink cspiBlockDevice.Capacity false] }
        | (none, w1) =>
          { s1 with
            isPoolExpanded := true,
            world := w1,
            trace := s1.trace ++
              [.expandPool cspiBlockDevice.DevLink cspiBlockDevice.Capacity true] }
      else s1
  else s

/-- The three nested loops of `ExpandPoolIfDiskExpanded` (lines 222 to 245). -/
def expandLoops {W : Type} (oc : OperationsConfig W) (dataFirst : Bool)
    (cspi : CStorPoolInstance) (s : ExpandState W) : ExpandState W :=
  (rangeMap dataFirst (getRaidGroupsConfiguration cspi)).foldl
    (fun s1 raidGroupConfig =>
      raidGroupConfig.2.RaidGroups.foldl
        (fun s2 raidGroup =>
          raidGroup.CStorPoolInstanceBlockDevices.foldl (expandBlockDevice oc) s2)
        s1)
    s

/-- What `ExpandPoolIfDiskExpanded` returns and leaves behind. The returned
error is always nil (line 260). -/
structure ExpandResult (W : Type) where
  cspi : CStorPoolInstance
  err : Option String
  world : W
  trace : List Step

/-- The method `ExpandPoolIfDiskExpanded`. -/
def ExpandPoolIfDiskExpanded {W : Type} (oc : OperationsConfig W) (dataFirst : Bool) (w : W)
    (cspi : CStorPoolInstance) : ExpandResult W :=
  let s := expandLoops oc dataFirst cspi
    { err := none, isPoolExpanded := false, world := w, trace := [] }
  let events : List Step :=
    if s.err ≠ none then [.event "Warning" "Pool Expansion" cspi.Name]
    else if s.isPoolExpanded then [.event "Normal" "Pool Expansion" cspi.Name]
    else []
  { cspi := cspi, err := none, world := s.world, trace := s.trace ++ events }

/-! ### `Update` -/

/-- The variables of `Update` that change while the raid groups are walked.

`bdClaimList` is the list fetched at line 65. The cleanup edits the annotation
map of the claim it is handed, and in Go that map is the map of the entry of
this list which the lookup of line 83 returned, so the edit shows in the list.

`dataRaidGroups` is the backing array of `cspi.Spec.DataRaidGroups` as the
copy of the slice held by the configuration map sees it (its length never
changes); `dataLen` is the current length of `cspi.Spec.DataRaidGroups`
itself, which line 173 shortens. Members are edited in place through the
shared backing arrays, so an edit is an edit of these lists. -/
structure UpdateState (W : Type) where
  bdClaimList : List BlockDeviceClaim
  dataRaidGroups : List RaidGroup
  dataLen : Nat
  writeCacheRaidGroups : List RaidGroup
  err : Option String
  isObjChanged : Bool
  isRaidGroupChanged : Bool
  world : W
  trace : List Step
  panicked : Bool

namespace UpdateState

/-- The pool instance behind the pointer `cspi` in this state. -/
def cspi {W : Type} (s : UpdateState W) (base : CStorPoolInstance) : CStorPoolInstance :=
  { base with
    Spec := { base.Spec with
      DataRaidGroups := s.dataRaidGroups.take s.dataLen,
      WriteCacheRaidGroups := s.writeCacheRaidGroups } }

/-- The slice `raidGroupsConfig.RaidGroups` of the map entry of a device
type. -/
def raidGroups {W : Type} (s : UpdateState W) (deviceType : String) : List RaidGroup :=
  if deviceType = DeviceTypeData then s.dataRaidGroups else s.writeCacheRaidGroups

end UpdateState

/-- Lines 124 and 125 on a list of raid groups: the member `bdevIndex` of the
group `raidIndex` gets a new `DevLink` and `Capacity`. -/
def setBlockDevice (groups : List RaidGroup) (raidIndex bdevIndex : Nat) (devLink : String)
    (capacity : Nat) : List RaidGroup :=
  match groups[raidIndex]? with
  | none => groups
  | some raidGroup =>
    match raidGroup.CStorPoolInstanceBlockDevices[bdevIndex]? with
    | none => groups
    | some bdev =>
      groups.set raidIndex
        ⟨raidGroup.CStorPoolInstanceBlockDevices.set bdevIndex
          { bdev with DevLink := devLink, Capacity := capacity }⟩

/-- Lines 124 to 126 on the state. -/
def markBlockDeviceChanged {W : Type} (s : UpdateState W) (deviceType : String)
    (raidIndex bdevIndex : Nat) (devLink : String) (capacity : Nat) : UpdateState W :=
  if deviceType = DeviceTypeData then
    { s with
      dataRaidGroups := setBlockDevice s.dataRaidGroups raidIndex bdevIndex devLink capacity,
      isRaidGroupChanged := true }
  else
    { s with
      writeCacheRaidGroups :=
        setBlockDevice s.writeCacheRaidGroups raidIndex bdevIndex devLink capacity,
      isRaidGroupChanged := true }

/-- The annotation map of the claim that line 83 looked up for `bdName` is
shared with the entry of the list (a Go map is a reference): after the cleanup
the first entry for `bdName` carries the annotations the cleanup left. -/
def shareAnnotations (bdClaimList : List BlockDeviceClaim) (bdName : String)
    (annotations : List (String × String)) : List BlockDeviceClaim :=
  match bdClaimList with
  | [] => []
  | bdc :: rest =>
    if bdc.BlockDeviceName == bdName then { bdc with Annotations := annotations } :: rest
    else bdc :: shareAnnotations rest bdName annotations

/-- Lines 130 to 165: the replacement event, then the resilver check and the
cleanup. -/
def updateBlockDeviceTail {W : Type} (oc : OperationsConfig W) (base : CStorPoolInstance)
    (bdev : CStorPoolInstanceBlockDevice)
    (bdClaim : BlockDeviceClaim) (predecessorBDName : String) (oldPath newPath : List String)
    (diskPath : String) (s : UpdateState W) : UpdateState W :=
  let s1 : UpdateState W :=
    if oldPath.length ≠ 0 ∧ newPath.length ≠ 0 then
      { s with
        trace := s.trace ++ [.event "Normal" "BlockDevice Replacement" bdev.BlockDeviceName] }
    else s
  if predecessorBDName ≠ "" then
    match isResilveringInProgress oc.zpool (oc.executeZpoolDump s1.world) (s1.cspi base)
        diskPath with
    | none => { s1 with panicked := true }
    | some true => s1
    | some false =>
      let oldBDClaim : Option BlockDeviceClaim :=
        match GetBlockDeviceClaimFromBDName s1.bdClaimList predecessorBDName with
        | .ok claim => some claim
        | .error _ => none
      let r := cleanUpReplacementMarks oc s1.world oldBDClaim bdClaim
      match r.err with
      | some er =>
        { s1 with
          bdClaimList :=
            shareAnnotations s1.bdClaimList bdev.BlockDeviceName r.newObj.Annotations,
          err := ErrorWrapf s1.err
            ("Failed cleanup replacement marks of replaced blockdevice " ++
              bdev.BlockDeviceName ++ ".. " ++ er),
          world := r.world,
          trace := s1.trace ++ r.trace ++
            [.cleanUpReplacementMarks bdev.BlockDeviceName false] }
      | none =>
        { s1 with
          bdClaimList :=
            shareAnnotations s1.bdClaimList bdev.BlockDeviceName r.newObj.Annotations,
          world := r.world,
          trace := s1.trace ++ r.trace ++
            [.cleanUpReplacementMarks bdev.BlockDeviceName true,
             .event "Normal" "BlockDevice Replacement" bdev.BlockDeviceName] }
  else s1

/-- The body of the member loop of `Update` (lines 81 to 165) for the member
`bdevIndex` of the raid group `raidIndex`. A `continue` is an early result. -/
def updateBlockDevice {W : Type} (oc : OperationsConfig W) (base : CStorPoolInstance)
    (deviceType : String) (raidIndex : Nat)
    (s : UpdateState W) (bdevIndex : Nat) : UpdateState W :=
  if s.panicked then s
  else
    match (s.raidGroups deviceType)[raidIndex]? with
    | none => { s with panicked := true }
    | some raidGroup =>
    match raidGroup.CStorPoolInstanceBlockDevices[bdevIndex]? with
    | none => { s with panicked := true }
    | some bdev =>
    match GetBlockDeviceClaimFromBDName s.bdClaimList bdev.BlockDeviceName with
    | .error er =>
      { s with
        err := ErrorWrapf s.err
          ("Failed to get claim of blockdevice " ++ bdev.BlockDeviceName ++ ".. " ++ er),
        trace := s.trace ++ [.claimLookup bdev.BlockDeviceName false] }
    | .ok bdClaim =>
      let predecessorBDName := mapGet bdClaim.Annotations oc.PredecessorBDLabelKey
      match (if predecessorBDName ≠ "" then getPathForBDev oc s.world predecessorBDName
             else .ok []) with
      | .error er =>
        { s with
          err := ErrorWrapf s.err
            ("Failed to check bdev change " ++ bdev.BlockDeviceName ++ ".. " ++ er),
          trace := s.trace ++ [.predecessorPath predecessorBDName false] }
      | .ok oldPath =>
        match getPathForBDev oc s.world bdev.BlockDeviceName with
        | .error er =>
          updateBlockDeviceTail oc base bdev bdClaim predecessorBDName oldPath []
            ""
            { s with
              err := ErrorWrapf s.err
                ("Failed to check bdev change " ++ bdev.BlockDeviceName ++ ".. " ++ er),
              trace := s.trace ++ [.currentPath bdev.BlockDeviceName false] }
        | .ok newPath =>
          match oc.replacePoolVdev s.world (s.cspi base) oldPath newPath with
          | (.error er, w1) =>
            { s with
              err := ErrorWrapf s.err
                ("Failed to replace bdev for " ++ bdev.BlockDeviceName ++ ".. " ++ er),
              world := w1,
              trace := s.trace ++
                [.replacePoolVdev bdev.BlockDeviceName oldPath newPath false] }
          | (.ok (diskPath, diskCapacityInBytes), w1) =>
            let s1 : UpdateState W :=
              { s with
                world := w1,
                trace := s.trace ++
                  [.replacePoolVdev bdev.BlockDeviceName oldPath newPath true] }
            let s2 : UpdateState W :=
              if IsEmpty diskPath = false ∧
                  (diskPath ≠ bdev.DevLink ∨ diskCapacityInBytes ≠ bdev.Capacity) then
                markBlockDeviceChanged s1 deviceType raidIndex bdevIndex diskPath
                  diskCapacityInBytes
              else s1
            updateBlockDeviceTail oc base bdev bdClaim predecessorBDName oldPath
              newPath diskPath s2

/-- Line 173 on the backing array: `append(s[:i], s[i+1:]...)` moves the
entries after `i` one place down inside the array and leaves the last entry of
the old slice in place. -/
def removeRaidGroupAt (backing : List RaidGroup) (len : Nat) (raidIndex : Nat) :
    List RaidGroup :=
  backing.take raidIndex ++ (backing.take len).drop (raidIndex + 1) ++ backing.drop (len - 1)

/-- One iteration of the raid-group loop of `Update` (lines 77 to 178) at
`raidIndex`, with the index of the next iteration: the decrement of line 175
followed by the increment of the loop leaves the index where it is. Slicing
beyond the length of `cspi.Spec.DataRaidGroups` at line 173 is a panic. -/
def updateRaidGroup {W : Type} (oc : OperationsConfig W) (base : CStorPoolInstance)
    (deviceType : String) (raidIndex : Nat)
    (s : UpdateState W) : UpdateState W × Nat :=
  if s.panicked then (s, raidIndex + 1)
  else
    let s0 : UpdateState W := { s with isRaidGroupChanged := false }
    match (s0.raidGroups deviceType)[raidIndex]? with
    | none => ({ s0 with panicked := true }, raidIndex + 1)
    | some raidGroup =>
      let s1 := (List.range raidGroup.CStorPoolInstanceBlockDevices.length).foldl
        (updateBlockDevice oc base deviceType raidIndex) s0
      if s1.panicked then (s1, raidIndex + 1)
      else if s1.isRaidGroupChanged then
        if raidGroup.CStorPoolInstanceBlockDevices.length = 0 then
          if s1.dataLen < raidIndex + 1 then ({ s1 with panicked := true }, raidIndex + 1)
          else
            ({ s1 with
               dataRaidGroups := removeRaidGroupAt s1.dataRaidGroups s1.dataLen raidIndex,
               dataLen := s1.dataLen - 1,
               isObjChanged := true }, raidIndex)
        else ({ s1 with isObjChanged := true }, raidIndex + 1)
      else (s1, raidIndex + 1)

/-- The raid-group loop of `Update` (line 76) from `raidIndex` on. Because the
body can leave the index unchanged the loop is run with fuel; `none` means
that the fuel ran out before the loop ended. -/
def updateRaidGroups {W : Type} (oc : OperationsConfig W) (base : CStorPoolInstance)
    (deviceType : String) :
    Nat → Nat → UpdateState W → Option (UpdateState W)
  | 0, raidIndex, s =>
    if s.panicked then some s
    else if raidIndex < (s.raidGroups deviceType).length then none
    else some s
  | fuel + 1, raidIndex, s =>
    if s.panicked then some s
    else if raidIndex < (s.raidGroups deviceType).length then
      let next := updateRaidGroup oc base deviceType raidIndex s
      updateRaidGroups oc base deviceType fuel next.2 next.1
    else some s

/-- The loop over the configuration map (line 74), in the order given. -/
def updateDeviceTypes {W : Type} (oc : OperationsConfig W) (base : CStorPoolInstance)
    (fuel : Nat) :
    List String → UpdateState W → Option (UpdateState W)
  | [], s => some s
  | deviceType :: rest, s =>
    match updateRaidGroups oc base deviceType fuel 0 s with
    | none => none
    | some s1 => updateDeviceTypes oc base fuel rest s1

/-- What `Update` returns (`cspi`, `err`) and leaves behind; `panicked` tells
that the pass ended in a run-time panic and returned nothing. -/
structure UpdateResult (W : Type) where
  cspi : CStorPoolInstance
  err : Option String
  world : W
  trace : List Step
  panicked : Bool

/-- Lines 182 to 205 of `Update`: the pool-growth check, persisting the record
and the capacity expansion. -/
def updateFinish {W : Type} (oc : OperationsConfig W) (expandDataFirst : Bool)
    (base : CStorPoolInstance) (s : UpdateState W) : UpdateResult W :=
  let cspi1 := s.cspi base
  let grown := oc.addNewVdevFromCSP s.world cspi1
  let trace2 : List Step :=
    match grown.1 with
    | some _ => s.trace ++ [.addNewVdevFromCSP false, .event "Warning" "Pool Expansion" cspi1.Name]
    | none => s.trace ++ [.addNewVdevFromCSP true]
  let persisted : CStorPoolInstance × Option String × W × List Step :=
    if s.isObjChanged then
      match oc.updateCStorPoolInstance grown.2 cspi1 with
      | (.error er, w3) =>
        (cspi1, ErrorWrapf s.err ("Failed to update object.. err " ++ er), w3,
          trace2 ++ [.updateCStorPoolInstance false])
      | (.ok ncspi, w3) => (ncspi, s.err, w3, trace2 ++ [.updateCStorPoolInstance true])
    else (cspi1, s.err, grown.2, trace2)
  let expanded := ExpandPoolIfDiskExpanded oc expandDataFirst persisted.2.2.1 persisted.1
  { cspi := expanded.cspi, err := persisted.2.1, world := expanded.world,
    trace := persisted.2.2.2 ++ expanded.trace, panicked := false }

/-- The method `Update`. The two booleans fix the order in which the two
`range` loops over the configuration map visit its entries; `none` means that
the fuel of the raid-group loop ran out. -/
def Update {W : Type} (oc : OperationsConfig W) (fuel : Nat) (dataFirst expandDataFirst : Bool)
    (w : W) (cspi : CStorPoolInstance) : Option (UpdateResult W) :=
  let selector :=
    oc.CStorPoolClusterLabelKey ++ "=" ++ mapGet cspi.Labels oc.CStorPoolClusterLabelKey
  match oc.listBlockDeviceClaims w selector with
  | .error er =>
    some { cspi := cspi, err := some ("failed to list bdc: " ++ er), world := w,
           trace := [.listBlockDeviceClaims selector false], panicked := false }
  | .ok bdClaimList =>
    let s0 : UpdateState W :=
      { bdClaimList := bdClaimList,
        dataRaidGroups := cspi.Spec.DataRaidGroups,
        dataLen := cspi.Spec.DataRaidGroups.length,
        writeCacheRaidGroups := cspi.Spec.WriteCacheRaidGroups,
        err := none, isObjChanged := false, isRaidGroupChanged := false, world := w,
        trace := [.listBlockDeviceClaims selector true], panicked := false }
    match updateDeviceTypes oc cspi fuel
        ((rangeMap dataFirst (getRaidGroupsConfiguration cspi)).map Prod.fst) s0 with
    | none => none
    | some s1 =>
      if s1.panicked then
        some { cspi := s1.cspi cspi, err := s1.err, world := s1.world, trace := s1.trace,
               panicked := true }
      else some (updateFinish oc expandDataFirst cspi s1)

/-! ## Specification-side vocabulary for a pass -/

/-- The number of members of every raid group, in order. -/
def memberCounts (groups : List RaidGroup) : List Nat :=
  groups.map (fun g => g.CStorPoolInstanceBlockDevices.length)

/-- Two states hold raid groups of the same shape: the same number of groups
with the same number of members each, and the same length of
`cspi.Spec.DataRaidGroups`. -/
def SameShape {W : Type} (s t : UpdateState W) : Prop :=
  memberCounts s.dataRaidGroups = memberCounts t.dataRaidGroups ∧
  s.dataLen = t.dataLen ∧
  memberCounts s.writeCacheRaidGroups = memberCounts t.writeCacheRaidGroups

/-- The recorded steps whose failure `Update` wraps into the error it returns:
listing the claims, the claim lookup of a member, the resolution of the
predecessor or of the current paths, the replace command, the replacement
cleanup, and persisting the record. -/
def Step.failsPass : Step → Bool
  | .listBlockDeviceClaims _ false => true
  | .claimLookup _ false => true
  | .predecessorPath _ false => true
  | .currentPath _ false => true
  | .replacePoolVdev _ _ _ false => true
  | .cleanUpReplacementMarks _ false => true
  | .updateCStorPoolInstance false => true
  | _ => false

/-- Some recorded step of the trace is one of the failures of
`Step.failsPass`. -/
def passFailed (trace : List Step) : Bool := trace.any Step.failsPass

/-- The recorded failure of the pool-growth check of line 183. -/
def Step.failsGrowth : Step → Bool
  | .addNewVdevFromCSP false => true
  | _ => false

/-- The recorded failures inside the capacity-expansion step: the lookup of a
block device (line 227) and the expand command (line 234). -/
def Step.failsExpansion : Step → Bool
  | .expandGetBlockDevice _ false => true
  | .expandPool _ _ false => true
  | _ => false

/-- Some recorded step of the trace is a failed pool-growth check. -/
def growthFailed (trace : List Step) : Bool := trace.any Step.failsGrowth

/-- Some recorded step of the trace is a failure inside the capacity-expansion
step. -/
def expansionFailed (trace : List Step) : Bool := trace.any Step.failsExpansion

/-- A mirror of two disks with one spare. -/
def sampleTopology : Topology :=
  ⟨⟨[.mk "" [.mk "/dev/sda" [] [] [], .mk "/dev/sdb" [] [] []] [] []], [],
    [.mk "/dev/sdc" [] [] []]⟩⟩


/-- A pool instance with one data raid group of one member. -/
def sampleCSPI : CStorPoolInstance :=
  { Name := "cspi-1", Namespace := "openebs", Labels := [],
    Spec := { PoolConfig := ⟨"stripe", "stripe"⟩,
              DataRaidGroups := [⟨[⟨"bd-new", 1073741824, "/dev/sdb"⟩]⟩],
              WriteCacheRaidGroups := [] } }

/-- A sample assignment of the constants of the `zpool` package. -/
def sampleConstants : ZpoolConstants :=
  { VdevScanProcessedIndex := 25, VdevScanStatsStateIndex := 1,
    VdevScanStatsScanFuncIndex := 0, PoolScanFinished := 2, PoolScanFuncResilver := 2 }

/-- A topology of one disk at `path` with the given statistics vectors and
children. -/
def oneDiskTopology (path : String) (children : List Vdev) (vdevStats scanStats : List Nat) :
    Topology :=
  ⟨⟨[.mk path children vdevStats scanStats], [], []⟩⟩

/-- The vectors hold every counter that `isResilveringInProgress` reads on this
vdev: nothing when the scan statistics are empty; otherwise the processed
counter of the vdev statistics and, when that counter is nonzero and the vdev
is a leaf, the scan state and, when the state is finished, the scan
function. -/
def statsInRange (k : ZpoolConstants) (v : Vdev) : Prop :=
  v.ScanStats = [] ∨
    ∃ processed, v.VdevStats[k.VdevScanProcessedIndex]? = some processed ∧
      (processed = 0 ∨ v.Children ≠ [] ∨
        ∃ state, v.ScanStats[k.VdevScanStatsStateIndex]? = some state ∧
          (state ≠ k.PoolScanFinished ∨
            ∃ func, v.ScanStats[k.VdevScanStatsScanFuncIndex]? = some func))

/-! ## A scripted world for concrete passes -/

/-- A world in which every collaborator answers from a script: the claims and
block-device records of the object store, the names of the block devices whose
read fails although the record exists, the topology that the pool dump
reports, the capacity that the replace command reports, and which of the other
calls fail. -/
structure SampleWorld where
  claims : List BlockDeviceClaim
  blockDevices : List (String × BlockDevice)
  unreachable : List String
  topology : Topology
  vdevCapacity : Nat
  deleteFails : Bool
  addNewVdevFails : Bool
  expandFails : Bool

/-- The collaborators of the scripted world. Deleting a claim removes it from
the store; updating a claim replaces the stored one; the replace command
answers with the path of the new path set that the pool uses, or with the
empty path when there is no old path set. -/
def sampleOperations : OperationsConfig SampleWorld :=
  { zpool := sampleConstants,
    PredecessorBDLabelKey := "openebs.io/bd-predecessor",
    CSPCFinalizer := "cstorpoolcluster.openebs.io/finalizer",
    CStorPoolClusterLabelKey := "openebs.io/cstor-pool-cluster",
    listBlockDeviceClaims := fun w _ => .ok w.claims,
    getBlockDevice := fun w name =>
      if w.unreachable.contains name then .error "the server is currently unable"
      else
        match w.blockDevices.lookup name with
        | some bd => .ok bd
        | none => .error "not found",
    deleteBlockDeviceClaim := fun w _ name =>
      if w.deleteFails then (some "delete refused", w)
      else (none, { w with claims := w.claims.filter (fun c => c.Name != name) }),
    updateBlockDeviceClaim := fun w claim =>
      (none, { w with claims := w.claims.map (fun c => if c.Name = claim.Name then claim else c) }),
    updateCStorPoolInstance := fun w cspi => (.ok cspi, w),
    executeZpoolDump := fun w _ => .ok w.topology,
    replacePoolVdev := fun w _ oldPath newPath =>
      match checkIfDeviceUsed newPath w.topology with
      | (usedPath, true) => (.ok (usedPath, w.vdevCapacity), w)
      | (_, false) =>
        if oldPath.length = 0 then (.ok ("", 0), w)
        else (.error "old device links are not in use by pool", w),
    addNewVdevFromCSP := fun w _ =>
      (if w.addNewVdevFails then some "no new device" else none, w),
    expandPool := fun w _ _ => (if w.expandFails then some "expand failed" else none, w) }

/-- The claim of the replaced device `bd-old`. -/
def oldClaim : BlockDeviceClaim :=
  { Name := "bdc-old", Namespace := "openebs", Annotations := [],
    Finalizers := ["cstorpoolcluster.openebs.io/finalizer"], BlockDeviceName := "bd-old" }

/-- The claim of the device `bd-new`, which replaces `bd-old`. -/
def newClaim : BlockDeviceClaim :=
  { Name := "bdc-new", Namespace := "openebs",
    Annotations := [("openebs.io/bd-predecessor", "bd-old")],
    Finalizers := ["cstorpoolcluster.openebs.io/finalizer"], BlockDeviceName := "bd-new" }

/-- A mirror, which has no path of its own and no scan statistics, of the old
disk `/dev/sda` and the new disk `/dev/sdb`, and a single disk `/dev/sdc`; the
new disk is being resilvered: processed bytes nonzero, scan function resilver,
scan state scanning. -/
def resilveringTopology : Topology :=
  ⟨⟨[.mk "" [.mk "/dev/sda" [] (List.replicate 26 0) [],
             .mk "/dev/sdb" [] (List.replicate 25 0 ++ [4096]) [2, 1, 0, 0, 0, 0, 0, 0, 0]]
        [] [],
      .mk "/dev/sdc" [] (List.replicate 26 0) []], [], []⟩⟩

/-- The claim of `bd-new` without the predecessor marker. -/
def cleanedClaim : BlockDeviceClaim :=
  { Name := "bdc-new", Namespace := "openebs", Annotations := [],
    Finalizers := ["cstorpoolcluster.openebs.io/finalizer"], BlockDeviceName := "bd-new" }

/-- The claim of the device `bd-other`, which replaces nothing. -/
def otherClaim : BlockDeviceClaim :=
  { Name := "bdc-other", Namespace := "openebs", Annotations := [],
    Finalizers := ["cstorpoolcluster.openebs.io/finalizer"], BlockDeviceName := "bd-other" }

/-- The replacement of `bd-old` by `bd-new` is under way and the record of
`bd-new`, whose path is `/dev/sdb`, cannot be read. -/
def unreachableWorld : SampleWorld :=
  { claims := [oldClaim, newClaim, otherClaim],
    blockDevices := [("bd-old", ⟨[], "/dev/sda", 1073741824⟩),
                     ("bd-new", ⟨[], "/dev/sdb", 1073741824⟩),
                     ("bd-other", ⟨[], "/dev/sdc", 1073741824⟩)],
    unreachable := ["bd-new"],
    topology := resilveringTopology,
    vdevCapacity := 1073741824,
    deleteFails := false, addNewVdevFails := false, expandFails := false }

/-- A healthy world with the single device `bd-new` of the given live
capacity. -/
def quietWorld (liveCapacity : Nat) : SampleWorld :=
  { claims := [cleanedClaim],
    blockDevices := [("bd-new", ⟨[], "/dev/sdb", liveCapacity⟩)],
    unreachable := [],
    topology := oneDiskTopology "/dev/sdb" [] (List.replicate 26 0) [],
    vdevCapacity := 1073741824,
    deleteFails := false, addNewVdevFails := false, expandFails := false }

/-- A pool instance with one data raid group of one member with the given
recorded capacity. -/
def oneMemberCSPI (recordedCapacity : Nat) : CStorPoolInstance :=
  { sampleCSPI with
    Spec := { sampleCSPI.Spec with
      DataRaidGroups := [⟨[⟨"bd-new", recordedCapacity, "/dev/sdb"⟩]⟩] } }

/-- A pool instance whose only data raid group has no member. -/
def emptyGroupCSPI : CStorPoolInstance :=
  { sampleCSPI with Spec := { sampleCSPI.Spec with DataRaidGroups := [⟨[]⟩] } }

/-- A pool instance with one data raid group of the two members `bd-new` and
`bd-other`. -/
def twoMemberCSPI : CStorPoolInstance :=
  { sampleCSPI with
    Spec := { sampleCSPI.Spec with
      DataRaidGroups := [⟨[⟨"bd-new", 1073741824, "/dev/sdb"⟩,
                           ⟨"bd-other", 1073741824, "/dev/sdc"⟩]⟩] } }

/-- A healthy world in which the pool-growth check and the expand command
fail; the device has grown by about one gigabyte. -/
def growthFailsWorld : SampleWorld :=
  { quietWorld 2073741824 with addNewVdevFails := true, expandFails := true }

/-- A pool instance whose data raid group lists the device `bd-new` twice. -/
def twiceListedCSPI : CStorPoolInstance :=
  { sampleCSPI with
    Spec := { sampleCSPI.Spec with
      DataRaidGroups := [⟨[⟨"bd-new", 1073741824, "/dev/sdb"⟩,
                           ⟨"bd-new", 1073741824, "/dev/sdb"⟩]⟩] } }

/-- The replacement of `bd-old` by `bd-new` is over: the pool holds the single
disk `/dev/sdb`, which has no scan statistics, and every record can be read. -/
def replacedWorld : SampleWorld :=
  { unreachableWorld with
    unreachable := [],
    topology := oneDiskTopology "/dev/sdb" [] (List.replicate 26 0) [] }

/-- A world in which deleting a claim fails. -/
def deleteFailsWorld : SampleWorld :=
  { unreachableWorld with unreachable := [], deleteFails := true }

/-! # Theorems -/

/-! ## The search for a used path -/

theorem firstUsed_false_fst (path : List String) (l : List String)
    (h : (firstUsed path l).2 = false) : firstUsed path l = ("", false) := by
  induction l with
  | nil => rfl
  | cons p ps ih =>
    unfold firstUsed at h ⊢
    by_cases hc : ContainsString path p = true
    · simp [hc] at h
    · simp only [hc] at h ⊢
      exact ih h

theorem firstUsed_append (path : List String) (a b : List String) :
    firstUsed path (a ++ b) =
      match firstUsed path a with
      | (p, true) => (p, true)
      | (_, false) => firstUsed path b := by
  induction a with
  | nil => simp [firstUsed]
  | cons p ps ih =>
    simp only [List.cons_append, firstUsed]
    by_cases hc : ContainsString path p = true
    · simp [hc]
    · simp only [hc]
      exact ih

mutual
theorem compareDisk_eq (path : List String) :
    ∀ l : List Vdev, compareDisk path l = firstUsed path ((forestPreorder l).map Vdev.Path)
  | [] => by simp [compareDisk, forestPreorder, firstUsed]
  | v :: rest => by
    have h1 := compareDiskBody_eq path v
    have h2 := compareDisk_eq path rest
    simp only [compareDisk, forestPreorder, List.map_append, firstUsed_append, h1, h2]
termination_by structural l => l
theorem compareDiskBody_eq (path : List String) :
    ∀ v : Vdev, compareDiskBody path v = firstUsed path ((vdevPreorder v).map Vdev.Path)
  | .mk vp vc a b => by
    have h1 := compareDiskChildren_eq path vc
    simp only [compareDiskBody, vdevPreorder, List.map_cons, firstUsed, Vdev.Path, h1]
termination_by structural v => v
theorem compareDiskChildren_eq (path : List String) :
    ∀ l : List Vdev,
      compareDiskChildren path l = firstUsed path ((forestPreorder l).map Vdev.Path)
  | [] => by simp [compareDiskChildren, forestPreorder, firstUsed]
  | p :: ps => by
    have h1 := compareDiskChild_eq path p
    have h2 := compareDiskChildren_eq path ps
    simp only [compareDiskChildren, forestPreorder, List.map_append, firstUsed_append, h1, h2]
termination_by structural l => l
theorem compareDiskChild_eq (path : List String) :
    ∀ v : Vdev, compareDiskChild path v = firstUsed path ((vdevPreorder v).map Vdev.Path)
  | .mk pp pc a b => by
    have h1 := compareDisk_eq path pc
    simp only [compareDiskChild, vdevPreorder, List.map_cons, firstUsed, Vdev.Path, h1]
    split
    · rfl
    · generalize hq : firstUsed path (List.map Vdev.Path (forestPreorder pc)) = q
      rcases q with ⟨x, _ | _⟩
      · have := firstUsed_false_fst path _ (by rw [hq])
        rw [hq] at this
        simp [this]
      · rfl
termination_by structural v => v
end


theorem firstUsed_true_iff (path : List String) (l : List String) :
    (firstUsed path l).2 = true ↔ ∃ p ∈ l, p ∈ path := by
  induction l with
  | nil => simp [firstUsed]
  | cons p ps ih =>
    unfold firstUsed
    by_cases hc : ContainsString path p = true
    · have : p ∈ path := by simpa [ContainsString] using hc
      simp [hc, this]
    · have hn : p ∉ path := by simpa [ContainsString] using hc
      simp only [hc, List.mem_cons, Bool.false_eq_true, if_false]
      rw [ih]
      constructor
      · rintro ⟨q, hq, hqp⟩
        exact ⟨q, Or.inr hq, hqp⟩
      · rintro ⟨q, hq | hq, hqp⟩
        · subst hq
          exact absurd hqp hn
        · exact ⟨q, hq, hqp⟩

theorem firstUsed_true_split (path : List String) (l : List String)
    (h : (firstUsed path l).2 = true) :
    ∃ pre post, l = pre ++ (firstUsed path l).1 :: post ∧ (firstUsed path l).1 ∈ path ∧
      ∀ q ∈ pre, q ∉ path := by
  induction l with
  | nil => simp [firstUsed] at h
  | cons p ps ih =>
    unfold firstUsed at h ⊢
    by_cases hc : ContainsString path p = true
    · have : p ∈ path := by simpa [ContainsString] using hc
      simp only [hc, if_true]
      exact ⟨[], ps, rfl, this, by simp⟩
    · have hn : p ∉ path := by simpa [ContainsString] using hc
      simp only [hc] at h ⊢
      obtain ⟨pre, post, h1, h2, h3⟩ := ih h
      refine ⟨p :: pre, post, ?_, h2, ?_⟩
      · simp only [List.cons_append, Bool.false_eq_true, ↓reduceIte]
        exact congrArg _ h1
      · intro q hq
        rcases List.mem_cons.1 hq with rfl | hq
        · exact hn
        · exact h3 q hq

theorem checkIfDeviceUsed_eq (path : List String) (t : Topology) :
    checkIfDeviceUsed path t = firstUsed path ((topologyPreorder t).map Vdev.Path) := by
  simp only [checkIfDeviceUsed, topologyPreorder, List.map_append, firstUsed_append,
    compareDisk_eq]
  generalize firstUsed path (List.map Vdev.Path (forestPreorder t.VdevTree.Topvdev)) = q1
  generalize firstUsed path (List.map Vdev.Path (forestPreorder t.VdevTree.Spares)) = q2
  generalize firstUsed path (List.map Vdev.Path (forestPreorder t.VdevTree.Readcache)) = q3
  rcases q1 with ⟨x1, _ | _⟩ <;> rcases q2 with ⟨x2, _ | _⟩ <;> rcases q3 with ⟨x3, _ | _⟩ <;> rfl

theorem mem_topologyPreorder (t : Topology) (v : Vdev) :
    v ∈ topologyPreorder t ↔
      ∃ f ∈ [t.VdevTree.Topvdev, t.VdevTree.Spares, t.VdevTree.Readcache],
        v ∈ forestPreorder f := by
  simp [topologyPreorder, or_assoc]

/-- C9: `checkIfDeviceUsed` reports found exactly when some vdev at any depth of
the three forests has a path in the candidate set; the path it then returns is
in the candidate set and is the first such path in depth-first order (a vdev
before its children) over top-level vdevs, then spares, then read-cache vdevs;
a miss returns the empty path; and searching the three forests in another
order gives the same found flag. -/
theorem checkIfDeviceUsed_first_match (path : List String) (t : Topology) :
    ((checkIfDeviceUsed path t).2 = true ↔ ∃ v ∈ topologyPreorder t, v.Path ∈ path) ∧
    ((checkIfDeviceUsed path t).2 = true →
      (checkIfDeviceUsed path t).1 ∈ path ∧
      ∃ pre post, (topologyPreorder t).map Vdev.Path =
          pre ++ (checkIfDeviceUsed path t).1 :: post ∧ ∀ q ∈ pre, q ∉ path) ∧
    ((checkIfDeviceUsed path t).2 = false → (checkIfDeviceUsed path t).1 = "") ∧
    (∀ u : Topology,
      List.Perm [u.VdevTree.Topvdev, u.VdevTree.Spares, u.VdevTree.Readcache]
        [t.VdevTree.Topvdev, t.VdevTree.Spares, t.VdevTree.Readcache] →
      (checkIfDeviceUsed path u).2 = (checkIfDeviceUsed path t).2) := by
  have hiff : ∀ s : Topology,
      ((checkIfDeviceUsed path s).2 = true ↔ ∃ v ∈ topologyPreorder s, v.Path ∈ path) := by
    intro s
    rw [checkIfDeviceUsed_eq, firstUsed_true_iff]
    simp
  refine ⟨hiff t, ?_, ?_, ?_⟩
  · intro h
    rw [checkIfDeviceUsed_eq] at h ⊢
    obtain ⟨pre, post, h1, h2, h3⟩ := firstUsed_true_split path _ h
    exact ⟨h2, pre, post, h1, h3⟩
  · intro h
    rw [checkIfDeviceUsed_eq] at h ⊢
    rw [firstUsed_false_fst path _ h]
  · intro u hperm
    have hmem : ∀ v, v ∈ topologyPreorder u ↔ v ∈ topologyPreorder t := by
      intro v
      rw [mem_topologyPreorder, mem_topologyPreorder]
      constructor
      · rintro ⟨f, hf, hv⟩
        exact ⟨f, hperm.mem_iff.1 hf, hv⟩
      · rintro ⟨f, hf, hv⟩
        exact ⟨f, hperm.mem_iff.2 hf, hv⟩
    have e : ((checkIfDeviceUsed path u).2 = true ↔ (checkIfDeviceUsed path t).2 = true) := by
      rw [hiff u, hiff t]
      constructor
      · rintro ⟨v, hv, hp⟩
        exact ⟨v, (hmem v).1 hv, hp⟩
      · rintro ⟨v, hv, hp⟩
        exact ⟨v, (hmem v).2 hv, hp⟩
    cases h1 : (checkIfDeviceUsed path u).2 <;> cases h2 : (checkIfDeviceUsed path t).2 <;>
      simp_all

/-- C9, witness: in the sample topology the candidate set holds the paths of a
spare and of a mirror child; the search reports the child, which comes first. -/
theorem checkIfDeviceUsed_first_match_witness :
    (checkIfDeviceUsed ["/dev/sdc", "/dev/sdb"] sampleTopology).2 = true ∧
    (checkIfDeviceUsed ["/dev/sdc", "/dev/sdb"] sampleTopology).1 ∈ ["/dev/sdc", "/dev/sdb"] :=
  ⟨by decide,
    ((checkIfDeviceUsed_first_match ["/dev/sdc", "/dev/sdb"] sampleTopology).2.1
      (by decide)).1⟩


/-! ## The resilver classification -/

mutual
theorem GetVdevFromPath_miss (path : String) :
    ∀ l : List Vdev, (∀ v ∈ forestPreorder l, v.Path ≠ path) →
      GetVdevFromPath path l = (Vdev.zero, false)
  | [], _ => by simp [GetVdevFromPath]
  | w :: rest, h => by
    have hw := GetVdevFromPathVdev_miss path w (fun v hv =>
      h v (by simp [forestPreorder, hv]))
    have hr := GetVdevFromPath_miss path rest (fun v hv =>
      h v (by simp [forestPreorder, hv]))
    simp [GetVdevFromPath, hw, hr]
termination_by structural l => l
theorem GetVdevFromPathVdev_miss (path : String) :
    ∀ w : Vdev, (∀ v ∈ vdevPreorder w, v.Path ≠ path) →
      GetVdevFromPathVdev path w = (Vdev.zero, false)
  | .mk p c vs ss, h => by
    have hp : p ≠ path := by
      have := h (.mk p c vs ss) (by simp [vdevPreorder])
      simpa [Vdev.Path] using this
    have hc := GetVdevFromPath_miss path c (fun v hv =>
      h v (by simp [vdevPreorder, hv]))
    simp [GetVdevFromPathVdev, hp, hc]
termination_by structural w => w
end

theorem getVdevFromPath_miss (path : String) (t : Topology)
    (h : ∀ v ∈ topologyPreorder t, v.Path ≠ path) :
    getVdevFromPath path t = (Vdev.zero, false) := by
  have h1 := GetVdevFromPath_miss path t.VdevTree.Topvdev (fun v hv =>
    h v (by simp [topologyPreorder, hv]))
  have h2 := GetVdevFromPath_miss path t.VdevTree.Spares (fun v hv =>
    h v (by simp [topologyPreorder, hv]))
  have h3 := GetVdevFromPath_miss path t.VdevTree.Readcache (fun v hv =>
    h v (by simp [topologyPreorder, hv]))
  simp [getVdevFromPath, h1, h2, h3]

theorem isResilveringInProgress_found (k : ZpoolConstants)
    (executeCommand : CStorPoolInstance → Except String Topology)
    (cspi : CStorPoolInstance) (path : String) (topo : Topology) (v : Vdev)
    (hexec : executeCommand cspi = .ok topo)
    (hfound : getVdevFromPath path topo = (v, true)) :
    isResilveringInProgress k executeCommand cspi path = classifyVdev k v := by
  simp [isResilveringInProgress, hexec, hfound]

theorem classifyVdev_isSome_iff (k : ZpoolConstants) (v : Vdev) :
    (∃ b, classifyVdev k v = some b) ↔ statsInRange k v := by
  unfold classifyVdev statsInRange
  by_cases h0 : v.ScanStats = []
  · simp [h0]
  · have hl : ¬ v.ScanStats.length = 0 := by simpa using h0
    simp only [hl, if_false, h0, false_or]
    cases hp : v.VdevStats[k.VdevScanProcessedIndex]? with
    | none => simp
    | some processed =>
      simp only [Option.some.injEq, exists_eq_left']
      by_cases hz : processed = 0
      · simp [hz]
      · simp only [hz, if_false, false_or]
        by_cases hc : v.Children = []
        · have hcl : v.Children.length = 0 := by simp [hc]
          simp only [hcl, if_true, hc, ne_eq, not_true_eq_false, false_or]
          cases hs : v.ScanStats[k.VdevScanStatsStateIndex]? with
          | none => simp
          | some state =>
            simp only [Option.some.injEq, exists_eq_left']
            by_cases hf : state = k.PoolScanFinished
            · simp only [hf, if_true, ne_eq, not_true_eq_false, false_or]
              cases hg : v.ScanStats[k.VdevScanStatsScanFuncIndex]? with
              | none => simp
              | some func =>
                by_cases hr : func = k.PoolScanFuncResilver <;> simp [hr]
            · simp [hf]
        · have hcl : ¬ v.Children.length = 0 := by simpa using hc
          simp [hcl, hc]

/-- C1 (as amended): for a topology that the inspection command returns and a
path whose vdev is found, `isResilveringInProgress` applies these rules in
order. Empty scan statistics give false. Otherwise the processed-bytes counter
is the entry `VdevScanProcessedIndex` of the vdev-statistics vector: zero gives
false. Otherwise a leaf whose scan state is finished and whose scan function is
resilver gives false. Otherwise (the vdev has children, or the state is not
finished, or the function is not resilver) the result is true. -/
theorem isResilveringInProgress_rules (k : ZpoolConstants)
    (executeCommand : CStorPoolInstance → Except String Topology)
    (cspi : CStorPoolInstance) (path : String) (topo : Topology) (v : Vdev)
    (hexec : executeCommand cspi = .ok topo)
    (hfound : getVdevFromPath path topo = (v, true)) :
    (v.ScanStats = [] → isResilveringInProgress k executeCommand cspi path = some false) ∧
    (v.ScanStats ≠ [] → v.VdevStats[k.VdevScanProcessedIndex]? = some 0 →
      isResilveringInProgress k executeCommand cspi path = some false) ∧
    (∀ processed, v.ScanStats ≠ [] →
      v.VdevStats[k.VdevScanProcessedIndex]? = some processed → processed ≠ 0 →
      (v.Children = [] →
        v.ScanStats[k.VdevScanStatsStateIndex]? = some k.PoolScanFinished →
        v.ScanStats[k.VdevScanStatsScanFuncIndex]? = some k.PoolScanFuncResilver →
        isResilveringInProgress k executeCommand cspi path = some false) ∧
      (v.Children ≠ [] →
        isResilveringInProgress k executeCommand cspi path = some true) ∧
      (∀ state, v.Children = [] →
        v.ScanStats[k.VdevScanStatsStateIndex]? = some state →
        state ≠ k.PoolScanFinished →
        isResilveringInProgress k executeCommand cspi path = some true) ∧
      (∀ func, v.Children = [] →
        v.ScanStats[k.VdevScanStatsStateIndex]? = some k.PoolScanFinished →
        v.ScanStats[k.VdevScanStatsScanFuncIndex]? = some func →
        func ≠ k.PoolScanFuncResilver →
        isResilveringInProgress k executeCommand cspi path = some true)) := by
  rw [isResilveringInProgress_found k executeCommand cspi path topo v hexec hfound]
  unfold classifyVdev
  refine ⟨?_, ?_, ?_⟩
  · intro h
    simp [h]
  · intro h hz
    have hl : ¬ v.ScanStats.length = 0 := by simpa using h
    simp [hl, hz]
  · intro processed h hp hnz
    have hl : ¬ v.ScanStats.length = 0 := by simpa using h
    simp only [hl, if_false, hp, hnz]
    refine ⟨?_, ?_, ?_, ?_⟩
    · intro hc hs hf
      simp [hc, hs, hf]
    · intro hc
      have hcl : ¬ v.Children.length = 0 := by simpa using hc
      simp [hcl]
    · intro state hc hs hne
      simp [hc, hs, hne]
    · intro func hc hs hf hne
      simp [hc, hs, hf, hne]

/-- C1, witness: a found leaf with scan statistics and a zero processed counter is
classified false. -/
theorem isResilveringInProgress_rules_witness :
    isResilveringInProgress sampleConstants
      (fun _ => .ok (oneDiskTopology "/dev/sdb" [] (List.replicate 26 0) [2, 2])) sampleCSPI
      "/dev/sdb" = some false :=
  (isResilveringInProgress_rules sampleConstants
    (fun _ => .ok (oneDiskTopology "/dev/sdb" [] (List.replicate 26 0) [2, 2])) sampleCSPI
    "/dev/sdb" (oneDiskTopology "/dev/sdb" [] (List.replicate 26 0) [2, 2])
    (.mk "/dev/sdb" [] (List.replicate 26 0) [2, 2]) rfl rfl).2.1
    (by decide) (by decide)

/-- C1, counterexample: the rules as the claim words them, with the
processed-bytes counter taken from the scan-statistics vector, fail wherever in
that vector the counter is taken to sit. A found leaf whose scan statistics are
all zero and whose vdev statistics carry a nonzero processed counter is
classified in progress, not false; and a found leaf whose scan statistics are
all one (a scan is running) and whose vdev statistics carry a zero processed
counter is classified false, although no rule of the claim that yields false
applies to it. -/
theorem isResilveringInProgress_counter_not_in_scan_stats :
    (¬ ∃ i : Nat, ∀ (k : ZpoolConstants)
        (executeCommand : CStorPoolInstance → Except String Topology)
        (cspi : CStorPoolInstance) (path : String) (topo : Topology) (v : Vdev),
        executeCommand cspi = .ok topo → getVdevFromPath path topo = (v, true) →
        v.ScanStats ≠ [] → v.ScanStats[i]? = some 0 →
        isResilveringInProgress k executeCommand cspi path = some false) ∧
    (¬ ∃ i : Nat, ∀ (k : ZpoolConstants)
        (executeCommand : CStorPoolInstance → Except String Topology)
        (cspi : CStorPoolInstance) (path : String) (topo : Topology) (v : Vdev) (counter : Nat),
        executeCommand cspi = .ok topo → getVdevFromPath path topo = (v, true) →
        v.ScanStats ≠ [] → v.ScanStats[i]? = some counter → counter ≠ 0 →
        v.ScanStats[k.VdevScanStatsStateIndex]? ≠ some k.PoolScanFinished →
        isResilveringInProgress k executeCommand cspi path = some true) := by
  constructor
  · rintro ⟨i, h⟩
    have := h sampleConstants
      (fun _ => .ok (oneDiskTopology "/dev/sdb" [] (List.replicate 26 7)
        (List.replicate (i + 2) 0)))
      sampleCSPI "/dev/sdb"
      (oneDiskTopology "/dev/sdb" [] (List.replicate 26 7) (List.replicate (i + 2) 0))
      (.mk "/dev/sdb" [] (List.replicate 26 7) (List.replicate (i + 2) 0)) rfl
      (by simp [getVdevFromPath, oneDiskTopology, GetVdevFromPath, GetVdevFromPathVdev])
      (by simp [Vdev.ScanStats, List.replicate_succ])
      (by simp [Vdev.ScanStats, List.getElem?_replicate])
    revert this
    simp [isResilveringInProgress, getVdevFromPath, oneDiskTopology, GetVdevFromPath,
      GetVdevFromPathVdev, classifyVdev, Vdev.ScanStats, Vdev.VdevStats, Vdev.Children,
      sampleConstants, List.getElem?_replicate]
  · rintro ⟨i, h⟩
    have := h sampleConstants
      (fun _ => .ok (oneDiskTopology "/dev/sdb" [] (List.replicate 26 0)
        (List.replicate (i + 2) 1)))
      sampleCSPI "/dev/sdb"
      (oneDiskTopology "/dev/sdb" [] (List.replicate 26 0) (List.replicate (i + 2) 1))
      (.mk "/dev/sdb" [] (List.replicate 26 0) (List.replicate (i + 2) 1)) 1 rfl
      (by simp [getVdevFromPath, oneDiskTopology, GetVdevFromPath, GetVdevFromPathVdev])
      (by simp [Vdev.ScanStats, List.replicate_succ])
      (by simp [Vdev.ScanStats, List.getElem?_replicate])
      (by decide)
      (by simp [Vdev.ScanStats, List.getElem?_replicate, sampleConstants])
    revert this
    simp [isResilveringInProgress, getVdevFromPath, oneDiskTopology, GetVdevFromPath,
      GetVdevFromPathVdev, classifyVdev, Vdev.ScanStats, Vdev.VdevStats, Vdev.Children,
      sampleConstants, List.getElem?_replicate]

/-- C2: `isResilveringInProgress` answers true (in progress) when the inspection
fails: when the dump command returns an error, and when the returned topology
has no vdev with that path at any depth of its three forests. -/
theorem isResilveringInProgress_inspection_failure (k : ZpoolConstants)
    (executeCommand : CStorPoolInstance → Except String Topology)
    (cspi : CStorPoolInstance) (path : String) :
    (∀ e, executeCommand cspi = .error e →
      isResilveringInProgress k executeCommand cspi path = some true) ∧
    (∀ topo, executeCommand cspi = .ok topo →
      (∀ v ∈ topologyPreorder topo, v.Path ≠ path) →
      isResilveringInProgress k executeCommand cspi path = some true) := by
  constructor
  · intro e he
    simp [isResilveringInProgress, he]
  · intro topo hok hmiss
    simp [isResilveringInProgress, hok, getVdevFromPath_miss path topo hmiss]

/-- C2, witness: a failing dump command, and a path that no vdev of the sample
topology has. -/
theorem isResilveringInProgress_inspection_failure_witness :
    isResilveringInProgress sampleConstants (fun _ => .error "zpool dump failed") sampleCSPI
        "/dev/sdb" = some true ∧
    isResilveringInProgress sampleConstants (fun _ => .ok sampleTopology) sampleCSPI
        "/dev/sdz" = some true :=
  ⟨(isResilveringInProgress_inspection_failure sampleConstants
      (fun _ => .error "zpool dump failed") sampleCSPI "/dev/sdb").1 "zpool dump failed" rfl,
   (isResilveringInProgress_inspection_failure sampleConstants
      (fun _ => .ok sampleTopology) sampleCSPI "/dev/sdz").2 sampleTopology rfl
      (by decide)⟩

/-- C10 (as amended): the classification is a function of its input, so it is
the same on every run; for a vdev found by path it returns a classification
exactly when the vectors hold every counter it reads (`statsInRange`), and then
exactly one; empty scan statistics always give false, and a zero processed
counter always gives false. -/
theorem isResilveringInProgress_total_iff (k : ZpoolConstants)
    (executeCommand : CStorPoolInstance → Except String Topology)
    (cspi : CStorPoolInstance) (path : String) (topo : Topology) (v : Vdev)
    (hexec : executeCommand cspi = .ok topo)
    (hfound : getVdevFromPath path topo = (v, true)) :
    ((∃! b, isResilveringInProgress k executeCommand cspi path = some b) ↔
      statsInRange k v) ∧
    (v.ScanStats = [] → isResilveringInProgress k executeCommand cspi path = some false) ∧
    (v.VdevStats[k.VdevScanProcessedIndex]? = some 0 →
      isResilveringInProgress k executeCommand cspi path = some false) := by
  rw [isResilveringInProgress_found k executeCommand cspi path topo v hexec hfound]
  refine ⟨?_, ?_, ?_⟩
  · rw [← classifyVdev_isSome_iff]
    constructor
    · rintro ⟨b, hb, _⟩
      exact ⟨b, hb⟩
    · rintro ⟨b, hb⟩
      refine ⟨b, hb, ?_⟩
      intro c hc
      rw [hb] at hc
      exact (Option.some.inj hc).symm
  · intro h
    simp [classifyVdev, h]
  · intro h
    unfold classifyVdev
    by_cases h0 : v.ScanStats.length = 0
    · simp [h0]
    · simp [h0, h]

/-- C10, witness: a found vdev without scan statistics is classified false. -/
theorem isResilveringInProgress_total_iff_witness :
    isResilveringInProgress sampleConstants
      (fun _ => .ok (oneDiskTopology "/dev/sdb" [] [] [])) sampleCSPI "/dev/sdb" = some false :=
  (isResilveringInProgress_total_iff sampleConstants
    (fun _ => .ok (oneDiskTopology "/dev/sdb" [] [] [])) sampleCSPI "/dev/sdb"
    (oneDiskTopology "/dev/sdb" [] [] []) (.mk "/dev/sdb" [] [] []) rfl rfl).2.1 rfl

/-- C10, counterexample: a found vdev with non-empty scan statistics and a
vdev-statistics vector shorter than the processed index makes
`isResilveringInProgress` fail with an index out of range, whatever the
constants are. -/
theorem isResilveringInProgress_not_total :
    ¬ ∀ (k : ZpoolConstants) (path : String) (topo : Topology) (v : Vdev),
        getVdevFromPath path topo = (v, true) →
        ∃ b, isResilveringInProgress k (fun _ => .ok topo) sampleCSPI path = some b := by
  intro h
  obtain ⟨b, hb⟩ := h sampleConstants "/dev/sdb" (oneDiskTopology "/dev/sdb" [] [] [1, 2])
    (.mk "/dev/sdb" [] [] [1, 2]) rfl
  revert hb
  simp [isResilveringInProgress, getVdevFromPath, oneDiskTopology, GetVdevFromPath,
    GetVdevFromPathVdev, classifyVdev, Vdev.ScanStats, Vdev.VdevStats]

/-! ## `Update` never removes a raid group -/

theorem memberCounts_setBlockDevice (groups : List RaidGroup) (raidIndex bdevIndex : Nat)
    (devLink : String) (capacity : Nat) :
    memberCounts (setBlockDevice groups raidIndex bdevIndex devLink capacity) =
      memberCounts groups := by
  unfold setBlockDevice
  cases hg : groups[raidIndex]? with
  | none => rfl
  | some raidGroup =>
    cases hb : raidGroup.CStorPoolInstanceBlockDevices[bdevIndex]? with
    | none => simp only [hb]
    | some bdev =>
      simp only [hb, memberCounts]
      apply List.ext_getElem?
      intro i
      by_cases hi : raidIndex = i
      · subst hi
        rcases List.getElem?_eq_some_iff.1 hg with ⟨hlt, hget⟩
        simp [List.getElem?_map, List.getElem?_set, hlt, hget]
      · simp [List.getElem?_map, List.getElem?_set, hi]

theorem SameShape.refl {W : Type} (s : UpdateState W) : SameShape s s :=
  ⟨rfl, rfl, rfl⟩

theorem SameShape.trans {W : Type} {s t u : UpdateState W} (h1 : SameShape s t)
    (h2 : SameShape t u) : SameShape s u :=
  ⟨h1.1.trans h2.1, h1.2.1.trans h2.2.1, h1.2.2.trans h2.2.2⟩

theorem SameShape.length_raidGroups {W : Type} {s t : UpdateState W} (h : SameShape s t)
    (deviceType : String) :
    (s.raidGroups deviceType).length = (t.raidGroups deviceType).length := by
  unfold UpdateState.raidGroups
  split
  · simpa [memberCounts] using congrArg List.length h.1
  · simpa [memberCounts] using congrArg List.length h.2.2

theorem markBlockDeviceChanged_shape {W : Type} (s : UpdateState W) (deviceType : String)
    (raidIndex bdevIndex : Nat) (devLink : String) (capacity : Nat) :
    SameShape (markBlockDeviceChanged s deviceType raidIndex bdevIndex devLink capacity) s := by
  unfold markBlockDeviceChanged
  split
  · exact ⟨memberCounts_setBlockDevice _ _ _ _ _, rfl, rfl⟩
  · exact ⟨rfl, rfl, memberCounts_setBlockDevice _ _ _ _ _⟩

theorem updateBlockDeviceTail_shape {W : Type} (oc : OperationsConfig W)
    (base : CStorPoolInstance)
    (bdev : CStorPoolInstanceBlockDevice) (bdClaim : BlockDeviceClaim)
    (predecessorBDName : String) (oldPath newPath : List String) (diskPath : String)
    (s : UpdateState W) :
    SameShape (updateBlockDeviceTail oc base bdev bdClaim predecessorBDName oldPath
      newPath diskPath s) s := by
  unfold updateBlockDeviceTail SameShape
  simp only
  split_ifs <;> (try split) <;> (try split) <;> simp

theorem updateBlockDevice_shape {W : Type} (oc : OperationsConfig W) (base : CStorPoolInstance)
    (deviceType : String) (raidIndex : Nat)
    (s : UpdateState W) (bdevIndex : Nat) :
    SameShape (updateBlockDevice oc base deviceType raidIndex s bdevIndex) s := by
  unfold updateBlockDevice
  split
  · exact SameShape.refl s
  · split
    · exact ⟨rfl, rfl, rfl⟩
    · split
      · exact ⟨rfl, rfl, rfl⟩
      · split
        · exact ⟨rfl, rfl, rfl⟩
        · simp only
          split
          · exact ⟨rfl, rfl, rfl⟩
          · split
            · exact (updateBlockDeviceTail_shape _ _ _ _ _ _ _ _ _).trans ⟨rfl, rfl, rfl⟩
            · split
              · exact ⟨rfl, rfl, rfl⟩
              · refine (updateBlockDeviceTail_shape _ _ _ _ _ _ _ _ _).trans ?_
                split
                · exact (markBlockDeviceChanged_shape _ _ _ _ _ _).trans ⟨rfl, rfl, rfl⟩
                · exact ⟨rfl, rfl, rfl⟩

theorem foldl_updateBlockDevice_shape {W : Type} (oc : OperationsConfig W)
    (base : CStorPoolInstance) (deviceType : String)
    (raidIndex : Nat) (indexes : List Nat) (s : UpdateState W) :
    SameShape (indexes.foldl (updateBlockDevice oc base deviceType raidIndex) s)
      s := by
  induction indexes generalizing s with
  | nil => exact SameShape.refl s
  | cons i rest ih =>
    simp only [List.foldl_cons]
    exact (ih _).trans (updateBlockDevice_shape _ _ _ _ _ _)

/-- The removal branch of lines 172 to 176 is never taken: the next index is
always the successor, and the shape of the raid groups is kept. -/
theorem updateRaidGroup_next {W : Type} (oc : OperationsConfig W) (base : CStorPoolInstance)
    (deviceType : String) (raidIndex : Nat)
    (s : UpdateState W) :
    (updateRaidGroup oc base deviceType raidIndex s).2 = raidIndex + 1 ∧
    SameShape (updateRaidGroup oc base deviceType raidIndex s).1 s := by
  unfold updateRaidGroup
  split
  · exact ⟨rfl, SameShape.refl s⟩
  · simp only
    split
    · exact ⟨rfl, rfl, rfl, rfl⟩
    · rename_i raidGroup _
      have hfold := foldl_updateBlockDevice_shape oc base deviceType raidIndex
        (List.range raidGroup.CStorPoolInstanceBlockDevices.length)
        { s with isRaidGroupChanged := false }
      have hs0 : SameShape ({ s with isRaidGroupChanged := false } : UpdateState W) s :=
        ⟨rfl, rfl, rfl⟩
      split
      · exact ⟨rfl, hfold.trans hs0⟩
      · split
        · rename_i hchanged
          split
          · rename_i hlen
            exfalso
            rw [hlen] at hchanged
            simp at hchanged
          · exact ⟨rfl, SameShape.trans ⟨rfl, rfl, rfl⟩ (hfold.trans hs0)⟩
        · exact ⟨rfl, hfold.trans hs0⟩

theorem foldl_updateRaidGroup_panicked {W : Type} (oc : OperationsConfig W)
    (base : CStorPoolInstance) (deviceType : String)
    (indexes : List Nat) (s : UpdateState W) (h : s.panicked = true) :
    indexes.foldl (fun st i => (updateRaidGroup oc base deviceType i st).1) s
      = s := by
  induction indexes with
  | nil => rfl
  | cons i rest ih =>
    simp only [List.foldl_cons]
    have : (updateRaidGroup oc base deviceType i s).1 = s := by
      simp [updateRaidGroup, h]
    rw [this]
    exact ih

/-- With enough fuel the raid-group loop ends, and it is the left fold of its
body over the indexes from `raidIndex` to the last, each taken once and in
order. -/
theorem updateRaidGroups_eq_foldl {W : Type} (oc : OperationsConfig W)
    (base : CStorPoolInstance) (deviceType : String) :
    ∀ (fuel raidIndex : Nat) (s : UpdateState W),
      (s.raidGroups deviceType).length ≤ raidIndex + fuel →
      updateRaidGroups oc base deviceType fuel raidIndex s =
        some ((List.range' raidIndex ((s.raidGroups deviceType).length - raidIndex)).foldl
          (fun st i => (updateRaidGroup oc base deviceType i st).1) s)
  | 0, raidIndex, s, h => by
    have hz : (s.raidGroups deviceType).length - raidIndex = 0 := by omega
    have hn : ¬ raidIndex < (s.raidGroups deviceType).length := by omega
    simp [updateRaidGroups, hz, hn]
  | fuel + 1, raidIndex, s, h => by
    unfold updateRaidGroups
    by_cases hp : s.panicked = true
    · simp only [hp, if_true]
      rw [foldl_updateRaidGroup_panicked oc base deviceType _ s hp]
    · simp only [hp, if_false]
      by_cases hlt : raidIndex < (s.raidGroups deviceType).length
      · simp only [hlt, if_true]
        have hnext := updateRaidGroup_next oc base deviceType raidIndex s
        have hlen := hnext.2.length_raidGroups deviceType
        rw [hnext.1]
        rw [updateRaidGroups_eq_foldl oc base deviceType fuel (raidIndex + 1) _
          (by rw [hlen]; omega)]
        rw [hlen]
        have hsplit : (s.raidGroups deviceType).length - raidIndex =
            ((s.raidGroups deviceType).length - (raidIndex + 1)) + 1 := by omega
        rw [hsplit, List.range'_succ]
        rfl
      · have hz : (s.raidGroups deviceType).length - raidIndex = 0 := by omega
        simp [hlt, hz]

theorem foldl_updateRaidGroup_shape {W : Type} (oc : OperationsConfig W)
    (base : CStorPoolInstance) (deviceType : String)
    (indexes : List Nat) (s : UpdateState W) :
    SameShape
      (indexes.foldl (fun st i => (updateRaidGroup oc base deviceType i st).1) s)
      s := by
  induction indexes generalizing s with
  | nil => exact SameShape.refl s
  | cons i rest ih =>
    simp only [List.foldl_cons]
    exact (ih _).trans (updateRaidGroup_next oc base deviceType i s).2

theorem updateDeviceTypes_shape {W : Type} (oc : OperationsConfig W) (base : CStorPoolInstance)
    (fuel : Nat) :
    ∀ (deviceTypes : List String) (s : UpdateState W),
      s.dataRaidGroups.length ≤ fuel → s.writeCacheRaidGroups.length ≤ fuel →
      ∃ t, updateDeviceTypes oc base fuel deviceTypes s = some t ∧ SameShape t s
  | [], s, _, _ => ⟨s, rfl, SameShape.refl s⟩
  | deviceType :: rest, s, hd, hw => by
    have hlen : (s.raidGroups deviceType).length ≤ 0 + fuel := by
      unfold UpdateState.raidGroups
      split <;> omega
    have hloop := updateRaidGroups_eq_foldl oc base deviceType fuel 0 s hlen
    have hshape := foldl_updateRaidGroup_shape oc base deviceType
      (List.range' 0 ((s.raidGroups deviceType).length - 0)) s
    have hd1 := congrArg List.length hshape.1
    have hw1 := congrArg List.length hshape.2.2
    simp only [memberCounts, List.length_map] at hd1 hw1
    obtain ⟨t, ht, hts⟩ := updateDeviceTypes_shape oc base fuel rest _
      (by rw [hd1]; exact hd) (by rw [hw1]; exact hw)
    refine ⟨t, ?_, hts.trans hshape⟩
    simp only [updateDeviceTypes, hloop]
    exact ht

theorem cspi_of_shape {W : Type} (base : CStorPoolInstance) (s : UpdateState W)
    (hd : memberCounts s.dataRaidGroups = memberCounts base.Spec.DataRaidGroups)
    (hl : s.dataLen = base.Spec.DataRaidGroups.length)
    (hw : memberCounts s.writeCacheRaidGroups = memberCounts base.Spec.WriteCacheRaidGroups) :
    memberCounts (s.cspi base).Spec.DataRaidGroups = memberCounts base.Spec.DataRaidGroups ∧
    memberCounts (s.cspi base).Spec.WriteCacheRaidGroups =
      memberCounts base.Spec.WriteCacheRaidGroups := by
  have hlen : s.dataRaidGroups.length = base.Spec.DataRaidGroups.length := by
    simpa [memberCounts] using congrArg List.length hd
  constructor
  · simp only [UpdateState.cspi]
    rw [hl, ← hlen, List.take_length]
    exact hd
  · exact hw

/-- C8 (as amended): `Update` never removes a raid group. With fuel for every
raid group the pass ends, and the record it returns has the raid groups of the
given record in the same places with the same number of members each, as long
as the object store hands back the raid groups it was given; so every returned
raid group has a member when every given raid group has one. The raid-group
loop is the fold of its body over the indexes `0, 1, ...` of the groups, each
taken once: no group is skipped or taken twice. -/
theorem Update_keeps_raid_groups {W : Type} (oc : OperationsConfig W) (fuel : Nat)
    (dataFirst expandDataFirst : Bool) (w : W) (cspi : CStorPoolInstance)
    (hfuel : cspi.Spec.DataRaidGroups.length ≤ fuel ∧
      cspi.Spec.WriteCacheRaidGroups.length ≤ fuel)
    (hstore : ∀ (w1 w2 : W) (c1 c2 : CStorPoolInstance),
      oc.updateCStorPoolInstance w1 c1 = (.ok c2, w2) →
      memberCounts c2.Spec.DataRaidGroups = memberCounts c1.Spec.DataRaidGroups ∧
      memberCounts c2.Spec.WriteCacheRaidGroups = memberCounts c1.Spec.WriteCacheRaidGroups) :
    (∃ r, Update oc fuel dataFirst expandDataFirst w cspi = some r ∧
      memberCounts r.cspi.Spec.DataRaidGroups = memberCounts cspi.Spec.DataRaidGroups ∧
      memberCounts r.cspi.Spec.WriteCacheRaidGroups =
        memberCounts cspi.Spec.WriteCacheRaidGroups ∧
      ((∀ n ∈ memberCounts cspi.Spec.DataRaidGroups ++
            memberCounts cspi.Spec.WriteCacheRaidGroups, 0 < n) →
        ∀ n ∈ memberCounts r.cspi.Spec.DataRaidGroups ++
            memberCounts r.cspi.Spec.WriteCacheRaidGroups, 0 < n)) ∧
    (∀ (deviceType : String) (s : UpdateState W),
      (s.raidGroups deviceType).length ≤ fuel →
      updateRaidGroups oc cspi deviceType fuel 0 s =
        some ((List.range (s.raidGroups deviceType).length).foldl
          (fun st i => (updateRaidGroup oc cspi deviceType i st).1) s)) := by
  constructor
  · have key : ∃ r, Update oc fuel dataFirst expandDataFirst w cspi = some r ∧
        memberCounts r.cspi.Spec.DataRaidGroups = memberCounts cspi.Spec.DataRaidGroups ∧
        memberCounts r.cspi.Spec.WriteCacheRaidGroups =
          memberCounts cspi.Spec.WriteCacheRaidGroups := by
      unfold Update
      simp only
      split
      · exact ⟨_, rfl, rfl, rfl⟩
      · rename_i bdClaimList _
        obtain ⟨t, ht, hts⟩ := updateDeviceTypes_shape oc cspi fuel
          ((rangeMap dataFirst (getRaidGroupsConfiguration cspi)).map Prod.fst)
          { bdClaimList := bdClaimList,
            dataRaidGroups := cspi.Spec.DataRaidGroups,
            dataLen := cspi.Spec.DataRaidGroups.length,
            writeCacheRaidGroups := cspi.Spec.WriteCacheRaidGroups,
            err := none, isObjChanged := false, isRaidGroupChanged := false, world := w,
            trace := [.listBlockDeviceClaims
              (oc.CStorPoolClusterLabelKey ++ "=" ++
                mapGet cspi.Labels oc.CStorPoolClusterLabelKey) true],
            panicked := false }
          hfuel.1 hfuel.2
        have hc := cspi_of_shape cspi t hts.1 hts.2.1 hts.2.2
        simp only [ht]
        split
        · exact ⟨_, rfl, hc.1, hc.2⟩
        · refine ⟨_, rfl, ?_⟩
          simp only [updateFinish, ExpandPoolIfDiskExpanded]
          split
          · split
            · exact hc
            · rename_i ncspi w3 hupd
              have := hstore _ _ _ _ hupd
              exact ⟨this.1.trans hc.1, this.2.trans hc.2⟩
          · exact hc
    obtain ⟨r, hr, hd, hw⟩ := key
    refine ⟨r, hr, hd, hw, ?_⟩
    rw [hd, hw]
    exact fun h => h
  · intro deviceType s hlen
    have := updateRaidGroups_eq_foldl oc cspi deviceType fuel 0 s (by omega)
    rw [this, List.range_eq_range']
    rfl

/-! ## The error returned by `Update` -/

theorem ErrorWrapf_isSome (err : Option String) (msg : String) :
    (ErrorWrapf err msg).isSome = true := by
  cases err <;> rfl

theorem passFailed_append (a b : List Step) :
    passFailed (a ++ b) = (passFailed a || passFailed b) := by
  simp [passFailed]

theorem passFailed_nil : passFailed [] = false := rfl

theorem passFailed_cons (a : Step) (l : List Step) :
    passFailed (a :: l) = (a.failsPass || passFailed l) := by
  simp [passFailed]

theorem passFailed_cleanUpReplacementMarks {W : Type} (oc : OperationsConfig W) (w : W)
    (oldObj : Option BlockDeviceClaim) (newObj : BlockDeviceClaim) :
    passFailed (cleanUpReplacementMarks oc w oldObj newObj).trace = false := by
  unfold cleanUpReplacementMarks
  split
  · simp only
    split
    · simp [passFailed_append, passFailed_cons, passFailed_nil, Step.failsPass]
    · unfold removePredecessorMark
      simp only
      split <;> simp [passFailed_append, passFailed_cons, passFailed_nil, Step.failsPass]
  · unfold removePredecessorMark
    simp only
    split <;> simp [passFailed_append, passFailed_cons, passFailed_nil, Step.failsPass]

theorem updateBlockDeviceTail_err {W : Type} (oc : OperationsConfig W)
    (base : CStorPoolInstance)
    (bdev : CStorPoolInstanceBlockDevice) (bdClaim : BlockDeviceClaim)
    (predecessorBDName : String) (oldPath newPath : List String) (diskPath : String)
    (s : UpdateState W) (h : s.err.isSome = passFailed s.trace) :
    (updateBlockDeviceTail oc base bdev bdClaim predecessorBDName oldPath newPath
      diskPath s).err.isSome =
    passFailed (updateBlockDeviceTail oc base bdev bdClaim predecessorBDName oldPath
      newPath diskPath s).trace := by
  unfold updateBlockDeviceTail
  simp only
  split_ifs <;> (try split) <;> (try split) <;>
    simp [passFailed_append, passFailed_cons, passFailed_nil, Step.failsPass,
      passFailed_cleanUpReplacementMarks, ErrorWrapf_isSome, h]

theorem markBlockDeviceChanged_err {W : Type} (s : UpdateState W) (deviceType : String)
    (raidIndex bdevIndex : Nat) (devLink : String) (capacity : Nat) :
    (markBlockDeviceChanged s deviceType raidIndex bdevIndex devLink capacity).err = s.err ∧
    (markBlockDeviceChanged s deviceType raidIndex bdevIndex devLink capacity).trace =
      s.trace := by
  unfold markBlockDeviceChanged
  split <;> exact ⟨rfl, rfl⟩

theorem updateBlockDevice_err {W : Type} (oc : OperationsConfig W) (base : CStorPoolInstance)
    (deviceType : String) (raidIndex : Nat)
    (s : UpdateState W) (bdevIndex : Nat) (h : s.err.isSome = passFailed s.trace) :
    (updateBlockDevice oc base deviceType raidIndex s bdevIndex).err.isSome =
    passFailed (updateBlockDevice oc base deviceType raidIndex s bdevIndex).trace := by
  unfold updateBlockDevice
  split
  · exact h
  · split
    · exact h
    · split
      · exact h
      · split
        · simp [passFailed_append, passFailed_cons, passFailed_nil, Step.failsPass, ErrorWrapf_isSome, h]
        · simp only
          split
          · simp [passFailed_append, passFailed_cons, passFailed_nil, Step.failsPass, ErrorWrapf_isSome, h]
          · split
            · apply updateBlockDeviceTail_err
              simp [passFailed_append, passFailed_cons, passFailed_nil, Step.failsPass, ErrorWrapf_isSome, h]
            · split
              · simp [passFailed_append, passFailed_cons, passFailed_nil, Step.failsPass, ErrorWrapf_isSome, h]
              · apply updateBlockDeviceTail_err
                split
                · rw [(markBlockDeviceChanged_err _ _ _ _ _ _).1,
                    (markBlockDeviceChanged_err _ _ _ _ _ _).2]
                  simpa [passFailed_append, passFailed_cons, passFailed_nil, Step.failsPass] using h
                · simpa [passFailed_append, passFailed_cons, passFailed_nil, Step.failsPass] using h

theorem foldl_updateBlockDevice_err {W : Type} (oc : OperationsConfig W)
    (base : CStorPoolInstance) (deviceType : String)
    (raidIndex : Nat) (indexes : List Nat) (s : UpdateState W)
    (h : s.err.isSome = passFailed s.trace) :
    (indexes.foldl (updateBlockDevice oc base deviceType raidIndex) s).err.isSome =
    passFailed
      (indexes.foldl (updateBlockDevice oc base deviceType raidIndex) s).trace := by
  induction indexes generalizing s with
  | nil => exact h
  | cons i rest ih =>
    simp only [List.foldl_cons]
    exact ih _ (updateBlockDevice_err _ _ _ _ _ _ h)

theorem updateRaidGroup_err {W : Type} (oc : OperationsConfig W) (base : CStorPoolInstance)
    (deviceType : String) (raidIndex : Nat)
    (s : UpdateState W) (h : s.err.isSome = passFailed s.trace) :
    (updateRaidGroup oc base deviceType raidIndex s).1.err.isSome =
    passFailed (updateRaidGroup oc base deviceType raidIndex s).1.trace := by
  unfold updateRaidGroup
  split
  · exact h
  · simp only
    split
    · exact h
    · rename_i raidGroup _
      have hfold := foldl_updateBlockDevice_err oc base deviceType raidIndex
        (List.range raidGroup.CStorPoolInstanceBlockDevices.length)
        { s with isRaidGroupChanged := false } h
      split
      · exact hfold
      · split
        · split
          · split <;> exact hfold
          · exact hfold
        · exact hfold

theorem updateRaidGroups_err {W : Type} (oc : OperationsConfig W) (base : CStorPoolInstance)
    (deviceType : String) :
    ∀ (fuel raidIndex : Nat) (s t : UpdateState W),
      updateRaidGroups oc base deviceType fuel raidIndex s = some t →
      s.err.isSome = passFailed s.trace → t.err.isSome = passFailed t.trace
  | 0, raidIndex, s, t, ht, h => by
    unfold updateRaidGroups at ht
    split at ht
    · cases ht
      exact h
    · split at ht
      · cases ht
      · cases ht
        exact h
  | fuel + 1, raidIndex, s, t, ht, h => by
    unfold updateRaidGroups at ht
    split at ht
    · cases ht
      exact h
    · split at ht
      · exact updateRaidGroups_err oc base deviceType fuel _ _ t ht
          (updateRaidGroup_err oc base deviceType raidIndex s h)
      · cases ht
        exact h

theorem updateDeviceTypes_err {W : Type} (oc : OperationsConfig W) (base : CStorPoolInstance)
    (fuel : Nat) :
    ∀ (deviceTypes : List String) (s t : UpdateState W),
      updateDeviceTypes oc base fuel deviceTypes s = some t →
      s.err.isSome = passFailed s.trace → t.err.isSome = passFailed t.trace
  | [], s, t, ht, h => by
    simp only [updateDeviceTypes, Option.some.injEq] at ht
    subst ht
    exact h
  | deviceType :: rest, s, t, ht, h => by
    simp only [updateDeviceTypes] at ht
    split at ht
    · cases ht
    · rename_i s1 hs1
      exact updateDeviceTypes_err oc base fuel rest s1 t ht
        (updateRaidGroups_err oc base deviceType fuel 0 s s1 hs1 h)

theorem passFailed_expandBlockDevice {W : Type} (oc : OperationsConfig W) (s : ExpandState W)
    (bd : CStorPoolInstanceBlockDevice) (h : passFailed s.trace = false) :
    passFailed (expandBlockDevice oc s bd).trace = false := by
  unfold expandBlockDevice
  by_cases hc : bd.Capacity > 0 ∧ bd.DevLink ≠ ""
  · rw [if_pos hc]
    cases hg : oc.getBlockDevice s.world bd.BlockDeviceName with
    | error er =>
      simp only [passFailed_append, passFailed_cons, passFailed_nil, Step.failsPass, h,
        Bool.or_self]
    | ok bdObj =>
      simp only
      by_cases hx : subUint64 bdObj.Capacity minimumMB > bd.Capacity
      · rw [if_pos hx]
        cases he : oc.expandPool s.world bd.DevLink bd.Capacity with
        | mk e w1 =>
          cases e <;>
            simp only [passFailed_append, passFailed_cons, passFailed_nil, Step.failsPass, h,
              Bool.or_self]
      · rw [if_neg hx]
        simp only [passFailed_append, passFailed_cons, passFailed_nil, Step.failsPass, h,
          Bool.or_self]
  · rw [if_neg hc]
    exact h

theorem passFailed_foldl_expandBlockDevice {W : Type} (oc : OperationsConfig W)
    (bds : List CStorPoolInstanceBlockDevice) (s : ExpandState W)
    (h : passFailed s.trace = false) :
    passFailed (bds.foldl (expandBlockDevice oc) s).trace = false := by
  induction bds generalizing s with
  | nil => exact h
  | cons bd rest ih => exact ih _ (passFailed_expandBlockDevice oc s bd h)

theorem passFailed_foldl_raidGroups {W : Type} (oc : OperationsConfig W)
    (groups : List RaidGroup) (s : ExpandState W) (h : passFailed s.trace = false) :
    passFailed (groups.foldl (fun s2 raidGroup =>
      raidGroup.CStorPoolInstanceBlockDevices.foldl (expandBlockDevice oc) s2) s).trace
      = false := by
  induction groups generalizing s with
  | nil => exact h
  | cons g rest ih => exact ih _ (passFailed_foldl_expandBlockDevice oc _ s h)

theorem passFailed_expandLoops {W : Type} (oc : OperationsConfig W) (dataFirst : Bool)
    (cspi : CStorPoolInstance) (s : ExpandState W) (h : passFailed s.trace = false) :
    passFailed (expandLoops oc dataFirst cspi s).trace = false := by
  unfold expandLoops
  generalize rangeMap dataFirst (getRaidGroupsConfiguration cspi) = entries
  induction entries generalizing s with
  | nil => exact h
  | cons e rest ih => exact ih _ (passFailed_foldl_raidGroups oc _ s h)

theorem passFailed_ExpandPoolIfDiskExpanded {W : Type} (oc : OperationsConfig W)
    (dataFirst : Bool) (w : W) (cspi : CStorPoolInstance) :
    passFailed (ExpandPoolIfDiskExpanded oc dataFirst w cspi).trace = false := by
  unfold ExpandPoolIfDiskExpanded
  simp only [passFailed_append]
  rw [passFailed_expandLoops oc dataFirst cspi _ (by rfl)]
  split_ifs <;> simp [passFailed_cons, passFailed_nil, Step.failsPass]

theorem updateFinish_err {W : Type} (oc : OperationsConfig W) (expandDataFirst : Bool)
    (base : CStorPoolInstance) (s : UpdateState W) (h : s.err.isSome = passFailed s.trace) :
    (updateFinish oc expandDataFirst base s).err.isSome =
      passFailed (updateFinish oc expandDataFirst base s).trace := by
  unfold updateFinish
  simp only [passFailed_append, passFailed_ExpandPoolIfDiskExpanded, Bool.or_false]
  split_ifs
  · split <;> split <;>
      simp [passFailed_append, passFailed_cons, passFailed_nil, Step.failsPass, ErrorWrapf_isSome, h]
  · split <;> simp [passFailed_append, passFailed_cons, passFailed_nil, Step.failsPass, h]

theorem Update_err_isSome {W : Type} (oc : OperationsConfig W) (fuel : Nat)
    (dataFirst expandDataFirst : Bool) (w : W) (cspi : CStorPoolInstance)
    (r : UpdateResult W) (h : Update oc fuel dataFirst expandDataFirst w cspi = some r) :
    r.err.isSome = passFailed r.trace := by
  unfold Update at h
  simp only at h
  split at h
  · cases h
    rfl
  · rename_i bdClaimList _
    split at h
    · cases h
    · rename_i s1 hs1
      have hs := updateDeviceTypes_err oc cspi fuel _ _ s1 hs1 (by rfl)
      split at h
      · cases h
        exact hs
      · cases h
        exact updateFinish_err oc expandDataFirst cspi s1 hs

/-- With fuel for every raid group the pass ends. -/
theorem Update_returns {W : Type} (oc : OperationsConfig W) (fuel : Nat)
    (dataFirst expandDataFirst : Bool) (w : W) (cspi : CStorPoolInstance)
    (hfuel : cspi.Spec.DataRaidGroups.length ≤ fuel ∧
      cspi.Spec.WriteCacheRaidGroups.length ≤ fuel) :
    ∃ r, Update oc fuel dataFirst expandDataFirst w cspi = some r := by
  unfold Update
  simp only
  split
  · exact ⟨_, rfl⟩
  · rename_i bdClaimList _
    obtain ⟨t, ht, _⟩ := updateDeviceTypes_shape oc cspi fuel
      ((rangeMap dataFirst (getRaidGroupsConfiguration cspi)).map Prod.fst)
      { bdClaimList := bdClaimList,
        dataRaidGroups := cspi.Spec.DataRaidGroups,
        dataLen := cspi.Spec.DataRaidGroups.length,
        writeCacheRaidGroups := cspi.Spec.WriteCacheRaidGroups,
        err := none, isObjChanged := false, isRaidGroupChanged := false, world := w,
        trace := [.listBlockDeviceClaims
          (oc.CStorPoolClusterLabelKey ++ "=" ++
            mapGet cspi.Labels oc.CStorPoolClusterLabelKey) true],
        panicked := false }
      hfuel.1 hfuel.2
    simp only [ht]
    split
    · exact ⟨_, rfl⟩
    · exact ⟨_, rfl⟩

/-! ## The events for a failed pool-growth check and a failed expansion -/

theorem growthFailed_append (a b : List Step) :
    growthFailed (a ++ b) = (growthFailed a || growthFailed b) := by
  simp [growthFailed]

theorem growthFailed_nil : growthFailed [] = false := rfl

theorem growthFailed_cons (a : Step) (l : List Step) :
    growthFailed (a :: l) = (a.failsGrowth || growthFailed l) := by
  simp [growthFailed]

theorem expansionFailed_append (a b : List Step) :
    expansionFailed (a ++ b) = (expansionFailed a || expansionFailed b) := by
  simp [expansionFailed]

theorem expansionFailed_nil : expansionFailed [] = false := rfl

theorem expansionFailed_cons (a : Step) (l : List Step) :
    expansionFailed (a :: l) = (a.failsExpansion || expansionFailed l) := by
  simp [expansionFailed]

theorem late_cleanUpReplacementMarks {W : Type} (oc : OperationsConfig W) (w : W)
    (oldObj : Option BlockDeviceClaim) (newObj : BlockDeviceClaim) :
    growthFailed (cleanUpReplacementMarks oc w oldObj newObj).trace = false ∧
    expansionFailed (cleanUpReplacementMarks oc w oldObj newObj).trace = false := by
  unfold cleanUpReplacementMarks removePredecessorMark
  split
  · simp only
    split
    · simp [growthFailed_cons, growthFailed_nil, expansionFailed_cons, expansionFailed_nil,
        Step.failsGrowth, Step.failsExpansion]
    · split <;>
        simp [growthFailed_cons, growthFailed_nil, expansionFailed_cons, expansionFailed_nil,
          growthFailed_append, expansionFailed_append, Step.failsGrowth, Step.failsExpansion]
  · simp only
    split <;>
      simp [growthFailed_cons, growthFailed_nil, expansionFailed_cons, expansionFailed_nil,
        growthFailed_append, expansionFailed_append, Step.failsGrowth, Step.failsExpansion]

theorem updateBlockDeviceTail_late {W : Type} (oc : OperationsConfig W)
    (base : CStorPoolInstance)
    (bdev : CStorPoolInstanceBlockDevice) (bdClaim : BlockDeviceClaim)
    (predecessorBDName : String) (oldPath newPath : List String) (diskPath : String)
    (s : UpdateState W)
    (h : growthFailed s.trace = false ∧ expansionFailed s.trace = false) :
    growthFailed (updateBlockDeviceTail oc base bdev bdClaim predecessorBDName oldPath newPath
      diskPath s).trace = false ∧
    expansionFailed (updateBlockDeviceTail oc base bdev bdClaim predecessorBDName oldPath
      newPath diskPath s).trace = false := by
  unfold updateBlockDeviceTail
  simp only
  split_ifs <;> (try split) <;> (try split) <;>
    simp [growthFailed_cons, growthFailed_nil, expansionFailed_cons, expansionFailed_nil,
      growthFailed_append, expansionFailed_append, Step.failsGrowth, Step.failsExpansion,
      late_cleanUpReplacementMarks, h.1, h.2]

theorem updateBlockDevice_late {W : Type} (oc : OperationsConfig W) (base : CStorPoolInstance)
    (deviceType : String) (raidIndex : Nat)
    (s : UpdateState W) (bdevIndex : Nat)
    (h : growthFailed s.trace = false ∧ expansionFailed s.trace = false) :
    growthFailed (updateBlockDevice oc base deviceType raidIndex s bdevIndex).trace = false ∧
    expansionFailed (updateBlockDevice oc base deviceType raidIndex s bdevIndex).trace
      = false := by
  unfold updateBlockDevice
  split
  · exact h
  · split
    · exact h
    · split
      · exact h
      · split
        · simp [growthFailed_cons, growthFailed_nil, expansionFailed_cons, expansionFailed_nil,
            growthFailed_append, expansionFailed_append, Step.failsGrowth,
            Step.failsExpansion, h.1, h.2]
        · simp only
          split
          · simp [growthFailed_cons, growthFailed_nil, expansionFailed_cons,
              expansionFailed_nil, growthFailed_append, expansionFailed_append,
              Step.failsGrowth, Step.failsExpansion, h.1, h.2]
          · split
            · apply updateBlockDeviceTail_late
              simp [growthFailed_cons, growthFailed_nil, expansionFailed_cons,
                expansionFailed_nil, growthFailed_append, expansionFailed_append,
                Step.failsGrowth, Step.failsExpansion, h.1, h.2]
            · split
              · simp [growthFailed_cons, growthFailed_nil, expansionFailed_cons,
                  expansionFailed_nil, growthFailed_append, expansionFailed_append,
                  Step.failsGrowth, Step.failsExpansion, h.1, h.2]
              · apply updateBlockDeviceTail_late
                split
                · rw [(markBlockDeviceChanged_err _ _ _ _ _ _).2]
                  simp [growthFailed_cons, growthFailed_nil, expansionFailed_cons,
                    expansionFailed_nil, growthFailed_append, expansionFailed_append,
                    Step.failsGrowth, Step.failsExpansion, h.1, h.2]
                · simp [growthFailed_cons, growthFailed_nil, expansionFailed_cons,
                    expansionFailed_nil, growthFailed_append, expansionFailed_append,
                    Step.failsGrowth, Step.failsExpansion, h.1, h.2]

theorem foldl_updateBlockDevice_late {W : Type} (oc : OperationsConfig W)
    (base : CStorPoolInstance) (deviceType : String)
    (raidIndex : Nat) (indexes : List Nat) (s : UpdateState W)
    (h : growthFailed s.trace = false ∧ expansionFailed s.trace = false) :
    growthFailed
      (indexes.foldl (updateBlockDevice oc base deviceType raidIndex) s).trace = false ∧
    expansionFailed
      (indexes.foldl (updateBlockDevice oc base deviceType raidIndex) s).trace = false := by
  induction indexes generalizing s with
  | nil => exact h
  | cons i rest ih =>
    simp only [List.foldl_cons]
    exact ih _ (updateBlockDevice_late _ _ _ _ _ _ h)

theorem updateRaidGroup_late {W : Type} (oc : OperationsConfig W) (base : CStorPoolInstance)
    (deviceType : String) (raidIndex : Nat)
    (s : UpdateState W)
    (h : growthFailed s.trace = false ∧ expansionFailed s.trace = false) :
    growthFailed (updateRaidGroup oc base deviceType raidIndex s).1.trace = false ∧
    expansionFailed (updateRaidGroup oc base deviceType raidIndex s).1.trace = false := by
  unfold updateRaidGroup
  split
  · exact h
  · simp only
    split
    · exact h
    · rename_i raidGroup _
      have hfold := foldl_updateBlockDevice_late oc base deviceType raidIndex
        (List.range raidGroup.CStorPoolInstanceBlockDevices.length)
        { s with isRaidGroupChanged := false } h
      split
      · exact hfold
      · split
        · split
          · split <;> exact hfold
          · exact hfold
        · exact hfold

theorem updateRaidGroups_late {W : Type} (oc : OperationsConfig W) (base : CStorPoolInstance)
    (deviceType : String) :
    ∀ (fuel raidIndex : Nat) (s t : UpdateState W),
      updateRaidGroups oc base deviceType fuel raidIndex s = some t →
      growthFailed s.trace = false ∧ expansionFailed s.trace = false →
      growthFailed t.trace = false ∧ expansionFailed t.trace = false
  | 0, raidIndex, s, t, ht, h => by
    unfold updateRaidGroups at ht
    split at ht
    · cases ht
      exact h
    · split at ht
      · cases ht
      · cases ht
        exact h
  | fuel + 1, raidIndex, s, t, ht, h => by
    unfold updateRaidGroups at ht
    split at ht
    · cases ht
      exact h
    · split at ht
      · exact updateRaidGroups_late oc base deviceType fuel _ _ t ht
          (updateRaidGroup_late oc base deviceType raidIndex s h)
      · cases ht
        exact h

theorem updateDeviceTypes_late {W : Type} (oc : OperationsConfig W) (base : CStorPoolInstance)
    (fuel : Nat) :
    ∀ (deviceTypes : List String) (s t : UpdateState W),
      updateDeviceTypes oc base fuel deviceTypes s = some t →
      growthFailed s.trace = false ∧ expansionFailed s.trace = false →
      growthFailed t.trace = false ∧ expansionFailed t.trace = false
  | [], s, t, ht, h => by
    simp only [updateDeviceTypes, Option.some.injEq] at ht
    subst ht
    exact h
  | deviceType :: rest, s, t, ht, h => by
    simp only [updateDeviceTypes] at ht
    split at ht
    · cases ht
    · rename_i s1 hs1
      exact updateDeviceTypes_late oc base fuel rest s1 t ht
        (updateRaidGroups_late oc base deviceType fuel 0 s s1 hs1 h)

/-- Inside the capacity-expansion loops the local error is non-nil exactly when
a lookup or an expand call failed, and no pool-growth step is recorded. -/
theorem expandBlockDevice_inv {W : Type} (oc : OperationsConfig W) (s : ExpandState W)
    (bd : CStorPoolInstanceBlockDevice)
    (h : s.err.isSome = expansionFailed s.trace ∧ growthFailed s.trace = false) :
    (expandBlockDevice oc s bd).err.isSome = expansionFailed (expandBlockDevice oc s bd).trace ∧
    growthFailed (expandBlockDevice oc s bd).trace = false := by
  unfold expandBlockDevice
  by_cases hc : bd.Capacity > 0 ∧ bd.DevLink ≠ ""
  · rw [if_pos hc]
    cases hg : oc.getBlockDevice s.world bd.BlockDeviceName with
    | error er =>
      simp [growthFailed_cons, growthFailed_nil, expansionFailed_cons, expansionFailed_nil,
        growthFailed_append, expansionFailed_append, Step.failsGrowth, Step.failsExpansion,
        ErrorWrapf_isSome, h.2]
    | ok bdObj =>
      simp only
      by_cases hx : subUint64 bdObj.Capacity minimumMB > bd.Capacity
      · rw [if_pos hx]
        cases he : oc.expandPool s.world bd.DevLink bd.Capacity with
        | mk e w1 =>
          cases e <;>
            simp [growthFailed_cons, growthFailed_nil, expansionFailed_cons,
              expansionFailed_nil, growthFailed_append, expansionFailed_append,
              Step.failsGrowth, Step.failsExpansion, ErrorWrapf_isSome, h.1, h.2]
      · rw [if_neg hx]
        simp [growthFailed_cons, growthFailed_nil, expansionFailed_cons, expansionFailed_nil,
          growthFailed_append, expansionFailed_append, Step.failsGrowth, Step.failsExpansion,
          h.1, h.2]
  · rw [if_neg hc]
    exact h

theorem foldl_expandBlockDevice_inv {W : Type} (oc : OperationsConfig W)
    (bds : List CStorPoolInstanceBlockDevice) (s : ExpandState W)
    (h : s.err.isSome = expansionFailed s.trace ∧ growthFailed s.trace = false) :
    (bds.foldl (expandBlockDevice oc) s).err.isSome =
      expansionFailed (bds.foldl (expandBlockDevice oc) s).trace ∧
    growthFailed (bds.foldl (expandBlockDevice oc) s).trace = false := by
  induction bds generalizing s with
  | nil => exact h
  | cons bd rest ih => exact ih _ (expandBlockDevice_inv oc s bd h)

theorem foldl_raidGroups_inv {W : Type} (oc : OperationsConfig W)
    (groups : List RaidGroup) (s : ExpandState W)
    (h : s.err.isSome = expansionFailed s.trace ∧ growthFailed s.trace = false) :
    (groups.foldl (fun s2 raidGroup =>
      raidGroup.CStorPoolInstanceBlockDevices.foldl (expandBlockDevice oc) s2) s).err.isSome =
    expansionFailed (groups.foldl (fun s2 raidGroup =>
      raidGroup.CStorPoolInstanceBlockDevices.foldl (expandBlockDevice oc) s2) s).trace ∧
    growthFailed (groups.foldl (fun s2 raidGroup =>
      raidGroup.CStorPoolInstanceBlockDevices.foldl (expandBlockDevice oc) s2) s).trace
      = false := by
  induction groups generalizing s with
  | nil => exact h
  | cons g rest ih => exact ih _ (foldl_expandBlockDevice_inv oc _ s h)

theorem expandLoops_inv {W : Type} (oc : OperationsConfig W) (dataFirst : Bool)
    (cspi : CStorPoolInstance) (s : ExpandState W)
    (h : s.err.isSome = expansionFailed s.trace ∧ growthFailed s.trace = false) :
    (expandLoops oc dataFirst cspi s).err.isSome =
      expansionFailed (expandLoops oc dataFirst cspi s).trace ∧
    growthFailed (expandLoops oc dataFirst cspi s).trace = false := by
  unfold expandLoops
  generalize rangeMap dataFirst (getRaidGroupsConfiguration cspi) = entries
  induction entries generalizing s with
  | nil => exact h
  | cons e rest ih => exact ih _ (foldl_raidGroups_inv oc _ s h)

/-- What `ExpandPoolIfDiskExpanded` records: no pool-growth step, and when a
lookup or an expand call failed the last step is the warning event for the
pool instance it was given. -/
theorem ExpandPoolIfDiskExpanded_events {W : Type} (oc : OperationsConfig W)
    (dataFirst : Bool) (w : W) (cspi : CStorPoolInstance) :
    growthFailed (ExpandPoolIfDiskExpanded oc dataFirst w cspi).trace = false ∧
    (ExpandPoolIfDiskExpanded oc dataFirst w cspi).cspi = cspi ∧
    (expansionFailed (ExpandPoolIfDiskExpanded oc dataFirst w cspi).trace = true →
      (ExpandPoolIfDiskExpanded oc dataFirst w cspi).trace.getLast? =
        some (Step.event "Warning" "Pool Expansion" cspi.Name)) := by
  have hinv := expandLoops_inv oc dataFirst cspi
    { err := none, isPoolExpanded := false, world := w, trace := [] } ⟨rfl, rfl⟩
  unfold ExpandPoolIfDiskExpanded
  simp only
  refine ⟨?_, trivial, ?_⟩
  · rw [growthFailed_append, hinv.2]
    split_ifs <;> simp [growthFailed_cons, growthFailed_nil, Step.failsGrowth]
  · intro hfail
    by_cases herr : (expandLoops oc dataFirst cspi
        { err := none, isPoolExpanded := false, world := w, trace := [] }).err = none
    · exfalso
      have h0 : expansionFailed (expandLoops oc dataFirst cspi
          { err := none, isPoolExpanded := false, world := w, trace := [] }).trace = false := by
        rw [← hinv.1, herr]
        rfl
      rw [if_neg (by simpa using herr)] at hfail
      rw [expansionFailed_append, h0] at hfail
      revert hfail
      split_ifs <;> simp [expansionFailed_cons, expansionFailed_nil, Step.failsExpansion]
    · rw [if_pos herr]
      simp

/-- The trace of lines 182 to 205: the trace of the loops, then the steps of
the pool-growth check and of persisting, then the trace of the capacity
expansion of the record that is returned. Among the steps in the middle a
failed pool-growth check is at once followed by its warning event. -/
theorem updateFinish_trace {W : Type} (oc : OperationsConfig W) (expandDataFirst : Bool)
    (base : CStorPoolInstance) (s : UpdateState W) :
    ∃ (mid : List Step) (w : W) (c : CStorPoolInstance),
      (updateFinish oc expandDataFirst base s).trace =
        s.trace ++ mid ++ (ExpandPoolIfDiskExpanded oc expandDataFirst w c).trace ∧
      (updateFinish oc expandDataFirst base s).cspi = c ∧
      expansionFailed mid = false ∧
      (growthFailed mid = false ∨
        ∃ rest, mid = Step.addNewVdevFromCSP false ::
          Step.event "Warning" "Pool Expansion" base.Name :: rest) := by
  unfold updateFinish
  simp only
  cases hg : oc.addNewVdevFromCSP s.world (s.cspi base) with
  | mk e w2 =>
    cases e with
    | none =>
      by_cases hobj : s.isObjChanged = true
      · simp only [hobj, if_true]
        cases hu : oc.updateCStorPoolInstance w2 (s.cspi base) with
        | mk res w3 =>
          cases res with
          | error er =>
            refine ⟨[.addNewVdevFromCSP true, .updateCStorPoolInstance false], w3, s.cspi base,
              ?_, ?_, ?_, Or.inl ?_⟩
            · simp [List.append_assoc]
            · exact (ExpandPoolIfDiskExpanded_events oc expandDataFirst _ _).2.1
            · simp [expansionFailed_cons, expansionFailed_nil, Step.failsExpansion]
            · simp [growthFailed_cons, growthFailed_nil, Step.failsGrowth]
          | ok ncspi =>
            refine ⟨[.addNewVdevFromCSP true, .updateCStorPoolInstance true], w3, ncspi,
              ?_, ?_, ?_, Or.inl ?_⟩
            · simp [List.append_assoc]
            · exact (ExpandPoolIfDiskExpanded_events oc expandDataFirst _ _).2.1
            · simp [expansionFailed_cons, expansionFailed_nil, Step.failsExpansion]
            · simp [growthFailed_cons, growthFailed_nil, Step.failsGrowth]
      · simp only [hobj, Bool.false_eq_true, if_false]
        refine ⟨[.addNewVdevFromCSP true], w2, s.cspi base, ?_, ?_, ?_, Or.inl ?_⟩
        · simp [List.append_assoc]
        · exact (ExpandPoolIfDiskExpanded_events oc expandDataFirst _ _).2.1
        · simp [expansionFailed_cons, expansionFailed_nil, Step.failsExpansion]
        · simp [growthFailed_cons, growthFailed_nil, Step.failsGrowth]
    | some ge =>
      by_cases hobj : s.isObjChanged = true
      · simp only [hobj, if_true]
        cases hu : oc.updateCStorPoolInstance w2 (s.cspi base) with
        | mk res w3 =>
          cases res with
          | error er =>
            refine ⟨[.addNewVdevFromCSP false, .event "Warning" "Pool Expansion" base.Name,
              .updateCStorPoolInstance false], w3, s.cspi base, ?_, ?_, ?_, Or.inr ⟨_, rfl⟩⟩
            · simp [List.append_assoc, UpdateState.cspi]
            · exact (ExpandPoolIfDiskExpanded_events oc expandDataFirst _ _).2.1
            · simp [expansionFailed_cons, expansionFailed_nil, Step.failsExpansion]
          | ok ncspi =>
            refine ⟨[.addNewVdevFromCSP false, .event "Warning" "Pool Expansion" base.Name,
              .updateCStorPoolInstance true], w3, ncspi, ?_, ?_, ?_, Or.inr ⟨_, rfl⟩⟩
            · simp [List.append_assoc, UpdateState.cspi]
            · exact (ExpandPoolIfDiskExpanded_events oc expandDataFirst _ _).2.1
            · simp [expansionFailed_cons, expansionFailed_nil, Step.failsExpansion]
      · simp only [hobj, Bool.false_eq_true, if_false]
        refine ⟨[.addNewVdevFromCSP false, .event "Warning" "Pool Expansion" base.Name],
          w2, s.cspi base, ?_, ?_, ?_, Or.inr ⟨_, rfl⟩⟩
        · simp [List.append_assoc, UpdateState.cspi]
        · exact (ExpandPoolIfDiskExpanded_events oc expandDataFirst _ _).2.1
        · simp [expansionFailed_cons, expansionFailed_nil, Step.failsExpansion]

theorem growthFailed_of_mem (trace : List Step)
    (h : Step.addNewVdevFromCSP false ∈ trace) : growthFailed trace = true := by
  simp only [growthFailed, List.any_eq_true]
  exact ⟨_, h, rfl⟩

/-- The events of the last part of a pass, for a state whose trace has no
failed pool-growth check and no failed expansion step yet. -/
theorem updateFinish_events {W : Type} (oc : OperationsConfig W) (expandDataFirst : Bool)
    (base : CStorPoolInstance) (s : UpdateState W)
    (h : growthFailed s.trace = false ∧ expansionFailed s.trace = false) :
    (Step.addNewVdevFromCSP false ∈ (updateFinish oc expandDataFirst base s).trace →
      ∃ pre post, (updateFinish oc expandDataFirst base s).trace =
        pre ++ Step.addNewVdevFromCSP false ::
          Step.event "Warning" "Pool Expansion" base.Name :: post) ∧
    (expansionFailed (updateFinish oc expandDataFirst base s).trace = true →
      (updateFinish oc expandDataFirst base s).trace.getLast? =
        some (Step.event "Warning" "Pool Expansion"
          (updateFinish oc expandDataFirst base s).cspi.Name)) := by
  obtain ⟨mid, w, c, htrace, hcspi, hmid, hgrow⟩ := updateFinish_trace oc expandDataFirst base s
  have hexp := ExpandPoolIfDiskExpanded_events oc expandDataFirst w c
  rw [htrace, hcspi]
  constructor
  · intro hmem
    rcases hgrow with hno | ⟨rest, hrest⟩
    · exfalso
      have := growthFailed_of_mem _ hmem
      rw [growthFailed_append, growthFailed_append, h.1, hno, hexp.1] at this
      exact Bool.false_ne_true this
    · refine ⟨s.trace, rest ++ (ExpandPoolIfDiskExpanded oc expandDataFirst w c).trace, ?_⟩
      rw [hrest]
      simp [List.append_assoc]
  · intro hfail
    rw [expansionFailed_append, expansionFailed_append, h.2, hmid] at hfail
    have hlast := hexp.2.2 (by simpa using hfail)
    rw [List.getLast?_append, hlast]
    rfl

theorem Update_events {W : Type} (oc : OperationsConfig W) (fuel : Nat)
    (dataFirst expandDataFirst : Bool) (w : W) (cspi : CStorPoolInstance)
    (r : UpdateResult W) (h : Update oc fuel dataFirst expandDataFirst w cspi = some r) :
    (Step.addNewVdevFromCSP false ∈ r.trace →
      ∃ pre post, r.trace = pre ++ Step.addNewVdevFromCSP false ::
        Step.event "Warning" "Pool Expansion" cspi.Name :: post) ∧
    (expansionFailed r.trace = true →
      r.trace.getLast? = some (Step.event "Warning" "Pool Expansion" r.cspi.Name)) := by
  unfold Update at h
  simp only at h
  split at h
  · cases h
    constructor
    · intro hmem
      simp at hmem
    · intro hfail
      simp [expansionFailed_cons, expansionFailed_nil, Step.failsExpansion] at hfail
  · rename_i bdClaimList _
    split at h
    · cases h
    · rename_i s1 hs1
      have hs := updateDeviceTypes_late oc cspi fuel _ _ s1 hs1
        ⟨by simp [growthFailed_cons, growthFailed_nil, Step.failsGrowth],
         by simp [expansionFailed_cons, expansionFailed_nil, Step.failsExpansion]⟩
      split at h
      · cases h
        constructor
        · intro hmem
          have := growthFailed_of_mem _ hmem
          rw [hs.1] at this
          exact absurd this Bool.false_ne_true
        · intro hfail
          rw [hs.2] at hfail
          exact absurd hfail Bool.false_ne_true
      · cases h
        exact updateFinish_events oc expandDataFirst cspi s1 hs

/-- C6 (as amended): with fuel for every raid group `Update` ends, and the error
it returns is non-nil exactly when one of these steps of the pass failed:
listing the claims, the claim lookup of a member, the resolution of a
predecessor or of a current path set, the replace command, the replacement
cleanup, or persisting the changed record. A failure of the pool-growth check
or inside the capacity-expansion step is not among them; it is reported as a
warning event: a failed pool-growth check is at once followed by the event
`Warning`, `Pool Expansion` for the pool instance, and when a lookup or an
expand call of the capacity-expansion step failed the pass ends with the event
`Warning`, `Pool Expansion` for the returned pool instance. -/
theorem Update_error_iff {W : Type} (oc : OperationsConfig W) (fuel : Nat)
    (dataFirst expandDataFirst : Bool) (w : W) (cspi : CStorPoolInstance)
    (hfuel : cspi.Spec.DataRaidGroups.length ≤ fuel ∧
      cspi.Spec.WriteCacheRaidGroups.length ≤ fuel) :
    ∃ r, Update oc fuel dataFirst expandDataFirst w cspi = some r ∧
      (r.err ≠ none ↔ ∃ step ∈ r.trace, step.failsPass = true) ∧
      (Step.addNewVdevFromCSP false ∈ r.trace →
        ∃ pre post, r.trace = pre ++ Step.addNewVdevFromCSP false ::
          Step.event "Warning" "Pool Expansion" cspi.Name :: post) ∧
      ((∃ step ∈ r.trace, step.failsExpansion = true) →
        r.trace.getLast? = some (Step.event "Warning" "Pool Expansion" r.cspi.Name)) := by
  obtain ⟨r, hr⟩ := Update_returns oc fuel dataFirst expandDataFirst w cspi hfuel
  have hev := Update_events oc fuel dataFirst expandDataFirst w cspi r hr
  refine ⟨r, hr, ?_, hev.1, ?_⟩
  · rw [← Option.isSome_iff_ne_none,
      Update_err_isSome oc fuel dataFirst expandDataFirst w cspi r hr]
    simp [passFailed]
  · intro hfail
    apply hev.2
    simpa [expansionFailed] using hfail

/-- C8, counterexample: a pass over a record whose only data raid group has no
member returns the record with that empty raid group still in place. -/
theorem Update_keeps_empty_raid_group :
    (Update sampleOperations 1 true true (quietWorld 1073741824) emptyGroupCSPI).map
      (fun r => (r.panicked, memberCounts r.cspi.Spec.DataRaidGroups)) = some (false, [0]) := by
  decide

/-- C8, witness: a pass over one raid group of one member in the scripted world,
whose object store hands back the record it was given. -/
theorem Update_keeps_raid_groups_witness :
    ∃ r, Update sampleOperations 1 true true (quietWorld 1073741824)
        (oneMemberCSPI 1073741824) = some r ∧
      memberCounts r.cspi.Spec.DataRaidGroups = [1] := by
  obtain ⟨r, hr, hd, _⟩ := (Update_keeps_raid_groups sampleOperations 1 true true
    (quietWorld 1073741824) (oneMemberCSPI 1073741824) (by decide)
    (by
      intro w1 w2 c1 c2 h
      simp only [sampleOperations, Prod.mk.injEq, Except.ok.injEq] at h
      rw [← h.1]
      exact ⟨rfl, rfl⟩)).1
  exact ⟨r, hr, hd⟩

/-- C6, counterexample: in a pass in which the pool-growth check fails and the
expand command of the capacity-expansion step fails, and nothing else does,
`Update` returns a nil error. -/
theorem Update_error_nil_when_growth_and_expand_fail :
    (Update sampleOperations 1 true true growthFailsWorld (oneMemberCSPI 1073741824)).map
      (fun r => (r.err, r.panicked,
        decide (Step.addNewVdevFromCSP false ∈ r.trace),
        decide (Step.expandPool "/dev/sdb" 1073741824 false ∈ r.trace))) =
      some (none, false, true, true) := by
  decide

/-- C6, witness: the pass of the scripted world in which the pool-growth check
and the expand command fail. -/
theorem Update_error_iff_witness :
    ∃ r, Update sampleOperations 1 true true growthFailsWorld (oneMemberCSPI 1073741824)
        = some r ∧
      (r.err ≠ none ↔ ∃ step ∈ r.trace, step.failsPass = true) ∧
      (Step.addNewVdevFromCSP false ∈ r.trace →
        ∃ pre post, r.trace = pre ++ Step.addNewVdevFromCSP false ::
          Step.event "Warning" "Pool Expansion" (oneMemberCSPI 1073741824).Name :: post) ∧
      ((∃ step ∈ r.trace, step.failsExpansion = true) →
        r.trace.getLast? = some (Step.event "Warning" "Pool Expansion" r.cspi.Name)) :=
  Update_error_iff sampleOperations 1 true true growthFailsWorld (oneMemberCSPI 1073741824)
    (by decide)

/-! ## The replacement cleanup -/

theorem mapGet_mapDelete (m : List (String × String)) (key : String) :
    mapGet (mapDelete m key) key = "" := by
  have h : (mapDelete m key).lookup key = none := by
    induction m with
    | nil => rfl
    | cons kv rest ih =>
      obtain ⟨k, v⟩ := kv
      unfold mapDelete at ih ⊢
      by_cases hk : k = key
      · have hb : (k != key) = false := by simp [hk]
        simp only [List.filter_cons, hb]
        exact ih
      · have hb : (k != key) = true := by simp [hk]
        have hne : (key == k) = false := by
          simp only [beq_eq_false_iff_ne, ne_eq]
          exact fun h => hk h.symm
        simp only [List.filter_cons, hb, if_true, List.lookup_cons, hne]
        exact ih
  simp [mapGet, h]

/-- C5 (as amended): for a predecessor claim that is not nil, when deleting it
fails `cleanUpReplacementMarks` reports the failure and returns at once: the
current claim keeps its annotations, the predecessor marker included, and no
update of the current claim is issued. Only when the deletion succeeds is the
marker removed from the annotations of the current claim and the updated claim
sent to the object store. -/
theorem cleanUpReplacementMarks_delete_outcome {W : Type} (oc : OperationsConfig W) (w : W)
    (oldObj newObj : BlockDeviceClaim) :
    (∀ e w1, oc.deleteBlockDeviceClaim w newObj.Namespace oldObj.Name = (some e, w1) →
      (cleanUpReplacementMarks oc w (some oldObj) newObj).err ≠ none ∧
      (cleanUpReplacementMarks oc w (some oldObj) newObj).newObj = newObj ∧
      (cleanUpReplacementMarks oc w (some oldObj) newObj).world = w1 ∧
      (cleanUpReplacementMarks oc w (some oldObj) newObj).trace =
        [.deleteBlockDeviceClaim oldObj.Name false]) ∧
    (∀ w1, oc.deleteBlockDeviceClaim w newObj.Namespace oldObj.Name = (none, w1) →
      (cleanUpReplacementMarks oc w (some oldObj) newObj).newObj.Annotations =
        mapDelete newObj.Annotations oc.PredecessorBDLabelKey ∧
      mapGet (cleanUpReplacementMarks oc w (some oldObj) newObj).newObj.Annotations
        oc.PredecessorBDLabelKey = "" ∧
      ∃ ok, (cleanUpReplacementMarks oc w (some oldObj) newObj).trace =
        [.deleteBlockDeviceClaim oldObj.Name true,
         .updateBlockDeviceClaim
           (cleanUpReplacementMarks oc w (some oldObj) newObj).newObj ok]) := by
  constructor
  · intro e w1 h
    simp [cleanUpReplacementMarks, RemoveFinalizer, h]
  · intro w1 h
    simp only [cleanUpReplacementMarks, RemoveFinalizer, h, removePredecessorMark]
    cases hu : oc.updateBlockDeviceClaim w1
        { newObj with Annotations := mapDelete newObj.Annotations oc.PredecessorBDLabelKey } with
    | mk e w2 =>
      cases e <;> simp [mapGet_mapDelete]

/-- C5, witness: in the world where deleting a claim fails the current claim is
returned as it was given. -/
theorem cleanUpReplacementMarks_delete_outcome_witness :
    (cleanUpReplacementMarks sampleOperations deleteFailsWorld (some oldClaim) newClaim).newObj
      = newClaim :=
  ((cleanUpReplacementMarks_delete_outcome sampleOperations deleteFailsWorld oldClaim
    newClaim).1 "delete refused" deleteFailsWorld rfl).2.1

/-- C5, counterexample: when the deletion of the predecessor claim fails, the
function returns an error, the current claim still carries the predecessor
marker, and the only call made is the failed deletion: the current claim is
not persisted. -/
theorem cleanUpReplacementMarks_keeps_marker_on_delete_failure :
    (cleanUpReplacementMarks sampleOperations deleteFailsWorld (some oldClaim) newClaim).err
      ≠ none ∧
    mapGet
      (cleanUpReplacementMarks sampleOperations deleteFailsWorld (some oldClaim)
        newClaim).newObj.Annotations
      sampleOperations.PredecessorBDLabelKey = "bd-old" ∧
    (cleanUpReplacementMarks sampleOperations deleteFailsWorld (some oldClaim) newClaim).trace
      = [.deleteBlockDeviceClaim "bdc-old" false] := by
  decide

/-! ## Capacity expansion -/

/-- On the range where the subtraction of line 233 does not wrap around, the
member loop of `ExpandPoolIfDiskExpanded` calls the expand command for a member
with a recorded path and a nonzero recorded capacity, whose live record is
available, exactly when the live capacity less 500 MiB exceeds the recorded
capacity; the call carries the recorded path and the recorded capacity. -/
theorem expandBlockDevice_expands_iff {W : Type} (oc : OperationsConfig W)
    (s : ExpandState W) (bd : CStorPoolInstanceBlockDevice) (bdObj : BlockDevice)
    (hcap : bd.Capacity > 0) (hlink : bd.DevLink ≠ "")
    (hget : oc.getBlockDevice s.world bd.BlockDeviceName = .ok bdObj)
    (hlow : 524288000 ≤ bdObj.Capacity) (hhigh : bdObj.Capacity < 2 ^ 64) :
    (∃ ok, (expandBlockDevice oc s bd).trace =
      s.trace ++ [.expandGetBlockDevice bd.BlockDeviceName true] ++
        [.expandPool bd.DevLink bd.Capacity ok]) ↔
    bdObj.Capacity - 524288000 > bd.Capacity := by
  have hsub : subUint64 bdObj.Capacity minimumMB = bdObj.Capacity - 524288000 := by
    unfold subUint64 minimumMB
    omega
  unfold expandBlockDevice
  rw [if_pos ⟨hcap, hlink⟩]
  simp only [hget, hsub]
  by_cases hx : bdObj.Capacity - 524288000 > bd.Capacity
  · rw [if_pos hx]
    cases he : oc.expandPool s.world bd.DevLink bd.Capacity with
    | mk e w1 => cases e <;> simp [hx]
  · rw [if_neg hx]
    simp [hx]

/-- C4, failing input: a device of 100 MiB that has not grown. The live
capacity less 500 MiB is negative, so it does not exceed the recorded
capacity, yet the unsigned subtraction of line 233 wraps around and the expand
command is called for the member. -/
theorem ExpandPoolIfDiskExpanded_wraps_below_margin :
    (ExpandPoolIfDiskExpanded sampleOperations true (quietWorld 104857600)
        (oneMemberCSPI 104857600)).trace =
      [.expandGetBlockDevice "bd-new" true, .expandPool "/dev/sdb" 104857600 true,
       .event "Normal" "Pool Expansion" "cspi-1"] ∧
    ¬ ((104857600 : Int) - 524288000 > 104857600) := by
  constructor
  · decide
  · decide

/-! ## A member whose current paths cannot be resolved -/

/-- C3, failing input: the claim of `bd-new` carries the predecessor `bd-old`,
the paths of `bd-new` cannot be resolved in this pass, and the vdev at the
path of `bd-new`, `/dev/sdb`, is classified resilvering in progress. The
classification is run against the empty path, finds the mirror, which has no
path, and answers not in progress; the predecessor claim is deleted. -/
theorem Update_retires_predecessor_while_resilvering :
    (unreachableWorld.blockDevices.lookup "bd-new").map (fun bd => bd.Path) =
      some "/dev/sdb" ∧
    isResilveringInProgress sampleConstants
      (sampleOperations.executeZpoolDump unreachableWorld) sampleCSPI "/dev/sdb" = some true ∧
    (Update sampleOperations 1 true true unreachableWorld sampleCSPI).map
      (fun r => (decide (Step.currentPath "bd-new" false ∈ r.trace),
        decide (Step.deleteBlockDeviceClaim "bdc-old" true ∈ r.trace),
        decide (Step.cleanUpReplacementMarks "bd-new" true ∈ r.trace),
        r.world.claims.map (fun c => c.Name))) =
      some (true, true, true, ["bdc-new", "bdc-other"]) := by
  refine ⟨by decide, by decide, by decide⟩

/-- C7, failing input: a raid group of two members. The current paths of the
first member, `bd-new`, cannot be resolved; the member is not skipped: after
the failed lookup the cleanup is run for it (the predecessor claim is deleted
and the claim of `bd-new` is updated). Its recorded path and capacity stay as
they were and the second member is processed. -/
theorem Update_cleans_up_member_with_unresolved_path :
    (Update sampleOperations 1 true true unreachableWorld twoMemberCSPI).map
      (fun r => r.trace) =
      some [.listBlockDeviceClaims "openebs.io/cstor-pool-cluster=" true,
            .currentPath "bd-new" false,
            .deleteBlockDeviceClaim "bdc-old" true,
            .updateBlockDeviceClaim cleanedClaim true,
            .cleanUpReplacementMarks "bd-new" true,
            .event "Normal" "BlockDevice Replacement" "bd-new",
            .replacePoolVdev "bd-other" [] ["/dev/sdc"] true,
            .addNewVdevFromCSP true,
            .expandGetBlockDevice "bd-new" false,
            .expandGetBlockDevice "bd-other" true,
            .event "Warning" "Pool Expansion" "cspi-1"] ∧
    (Update sampleOperations 1 true true unreachableWorld twoMemberCSPI).map
      (fun r => r.err.isSome) = some true ∧
    (Update sampleOperations 1 true true unreachableWorld twoMemberCSPI).map
      (fun r => r.cspi.Spec.DataRaidGroups.map
        (fun g => g.CStorPoolInstanceBlockDevices.map
          (fun bd => (bd.BlockDeviceName, bd.Capacity, bd.DevLink)))) =
      some [[("bd-new", 1073741824, "/dev/sdb"), ("bd-other", 1073741824, "/dev/sdc")]] := by
  refine ⟨by decide, by decide, by decide⟩

/-! ## What a failed lookup of a member leaves behind -/

/-- The three lookups of a member. When the claim of the member is not found,
or the paths of its predecessor cannot be resolved, the member is skipped: the
raid groups and the world are as before, the only step recorded is the failed
lookup, and the error is non-nil. When the current paths of the member cannot
be resolved, the raid groups are as before and the error is non-nil; the
source then goes on to the resilver check with the empty path. -/
theorem updateBlockDevice_failed_lookup {W : Type} (oc : OperationsConfig W)
    (base : CStorPoolInstance) (deviceType : String)
    (raidIndex bdevIndex : Nat) (s : UpdateState W) (raidGroup : RaidGroup)
    (bdev : CStorPoolInstanceBlockDevice)
    (hp : s.panicked = false)
    (hg : (s.raidGroups deviceType)[raidIndex]? = some raidGroup)
    (hb : raidGroup.CStorPoolInstanceBlockDevices[bdevIndex]? = some bdev) :
    (∀ er, GetBlockDeviceClaimFromBDName s.bdClaimList bdev.BlockDeviceName = .error er →
      (updateBlockDevice oc base deviceType raidIndex s bdevIndex).dataRaidGroups
        = s.dataRaidGroups ∧
      (updateBlockDevice oc base deviceType raidIndex s
        bdevIndex).writeCacheRaidGroups = s.writeCacheRaidGroups ∧
      (updateBlockDevice oc base deviceType raidIndex s bdevIndex).world = s.world ∧
      (updateBlockDevice oc base deviceType raidIndex s bdevIndex).err ≠ none ∧
      (updateBlockDevice oc base deviceType raidIndex s bdevIndex).trace =
        s.trace ++ [.claimLookup bdev.BlockDeviceName false]) ∧
    (∀ bdClaim er,
      GetBlockDeviceClaimFromBDName s.bdClaimList bdev.BlockDeviceName = .ok bdClaim →
      mapGet bdClaim.Annotations oc.PredecessorBDLabelKey ≠ "" →
      getPathForBDev oc s.world (mapGet bdClaim.Annotations oc.PredecessorBDLabelKey)
        = .error er →
      (updateBlockDevice oc base deviceType raidIndex s bdevIndex).dataRaidGroups
        = s.dataRaidGroups ∧
      (updateBlockDevice oc base deviceType raidIndex s
        bdevIndex).writeCacheRaidGroups = s.writeCacheRaidGroups ∧
      (updateBlockDevice oc base deviceType raidIndex s bdevIndex).world = s.world ∧
      (updateBlockDevice oc base deviceType raidIndex s bdevIndex).err ≠ none ∧
      (updateBlockDevice oc base deviceType raidIndex s bdevIndex).trace =
        s.trace ++
          [.predecessorPath (mapGet bdClaim.Annotations oc.PredecessorBDLabelKey) false]) ∧
    (∀ bdClaim oldPath er,
      GetBlockDeviceClaimFromBDName s.bdClaimList bdev.BlockDeviceName = .ok bdClaim →
      (if mapGet bdClaim.Annotations oc.PredecessorBDLabelKey ≠ "" then
        getPathForBDev oc s.world (mapGet bdClaim.Annotations oc.PredecessorBDLabelKey)
       else .ok []) = .ok oldPath →
      getPathForBDev oc s.world bdev.BlockDeviceName = .error er →
      updateBlockDevice oc base deviceType raidIndex s bdevIndex =
        updateBlockDeviceTail oc base bdev bdClaim
          (mapGet bdClaim.Annotations oc.PredecessorBDLabelKey) oldPath [] ""
          { s with
            err := ErrorWrapf s.err
              ("Failed to check bdev change " ++ bdev.BlockDeviceName ++ ".. " ++ er),
            trace := s.trace ++ [.currentPath bdev.BlockDeviceName false] }) := by
  refine ⟨?_, ?_, ?_⟩
  · intro er hc
    have hne : ErrorWrapf s.err
        ("Failed to get claim of blockdevice " ++ bdev.BlockDeviceName ++ ".. " ++ er)
        ≠ none := by
      cases s.err <;> simp [ErrorWrapf]
    simp [updateBlockDevice, hp, hg, hb, hc, hne]
  · intro bdClaim er hc hpred hpath
    have hne : ErrorWrapf s.err
        ("Failed to check bdev change " ++ bdev.BlockDeviceName ++ ".. " ++ er) ≠ none := by
      cases s.err <;> simp [ErrorWrapf]
    simp [updateBlockDevice, hp, hg, hb, hc, hpred, hpath, hne]
  · intro bdClaim oldPath er hc hold hpath
    simp only [updateBlockDevice, hp, hg, hb, hc, hold, hpath]
    simp

/-- The guard of line 147: the tail of the member body runs the cleanup exactly
when the predecessor marker is non-empty and the classification of `diskPath`,
the path it was handed, is false. -/
theorem updateBlockDeviceTail_cleanup_iff {W : Type} (oc : OperationsConfig W)
    (base : CStorPoolInstance)
    (bdev : CStorPoolInstanceBlockDevice) (bdClaim : BlockDeviceClaim)
    (predecessorBDName : String) (oldPath newPath : List String) (diskPath : String)
    (s : UpdateState W)
    (hfresh : ∀ ok, Step.cleanUpReplacementMarks bdev.BlockDeviceName ok ∉ s.trace) :
    (∃ ok, Step.cleanUpReplacementMarks bdev.BlockDeviceName ok ∈
      (updateBlockDeviceTail oc base bdev bdClaim predecessorBDName oldPath newPath
        diskPath s).trace) ↔
    (predecessorBDName ≠ "" ∧
      isResilveringInProgress oc.zpool (oc.executeZpoolDump s.world) (s.cspi base) diskPath
        = some false) := by
  unfold updateBlockDeviceTail
  simp only
  by_cases hpred : predecessorBDName = ""
  · simp only [hpred, ne_eq, not_true_eq_false, if_false, false_and, iff_false, not_exists]
    intro ok
    split
    · simp [hfresh]
    · exact hfresh ok
  · simp only [ne_eq, hpred, not_false_eq_true, if_true, true_and]
    have hcspi : ∀ t : List Step,
        ({ s with trace := t } : UpdateState W).cspi base = s.cspi base := fun _ => rfl
    split_ifs
    · simp only [hcspi]
      cases hres : isResilveringInProgress oc.zpool (oc.executeZpoolDump s.world) (s.cspi base)
          diskPath with
      | none => simp [hfresh]
      | some b =>
        cases b
        · simp only [iff_true]
          split
          · exact ⟨false, by simp⟩
          · exact ⟨true, by simp⟩
        · simp [hfresh]
    · cases hres : isResilveringInProgress oc.zpool (oc.executeZpoolDump s.world) (s.cspi base)
          diskPath with
      | none => simp [hfresh]
      | some b =>
        cases b
        · simp only [iff_true]
          split
          · exact ⟨false, by simp⟩
          · exact ⟨true, by simp⟩
        · simp [hfresh]


/-- The cleanup removes the predecessor marker from the annotation map that the
claim list shares: when one device is listed twice in a pass, the cleanup is
run for it once. -/
theorem Update_cleans_up_twice_listed_device_once :
    (Update sampleOperations 1 true true replacedWorld twiceListedCSPI).map
      (fun r => (r.trace.count (Step.cleanUpReplacementMarks "bd-new" true),
        r.trace.count (Step.deleteBlockDeviceClaim "bdc-old" true))) = some (1, 1) := by
  decide

end Cstor
